import Mathlib

/-!
Verification of the dependency-injection container in `di_container`
(`container.py`, `registration.py`, `enums.py`, `exceptions.py`).

The embedding models Python values and object identity explicitly:

* a Python value (`PyVal`) is either `None` (`Option.none`) or an object,
  identified by an allocation id (`some n`);
* object construction (class instantiation, `fresh` factory bodies) draws a
  new id from an allocation counter carried in the container state, so two
  separately constructed objects are provably distinct;
* Python classes are described by a `ClassDef` environment mapping a type id
  to its constructor signature (`inspect.signature(cls.__init__)`);
* factories are deep-embedded: a parameter list (as seen by
  `inspect.signature(factory)`) plus a production behaviour;
* exceptions are values of `DIError`; `try`/`finally` is explicit state
  threading; the unbounded recursion of `_resolve_keyed_internal` is bounded
  by a fuel parameter (`DIError.outOfFuel` is the modelling artifact for
  running out of fuel and corresponds to no Python behaviour).

Field and function names follow the Python source (`snake_case`), with the
leading underscore of private methods dropped.
-/

/-- A Python value: `none` is Python `None`, `some n` is the object with
allocation id `n`. -/
abbrev PyVal := Option Nat

/-- The `(service_type, key)` pair used to index the registry, the singleton
cache, the scope cache and the resolution stack. An unkeyed registration has
key `none` (Python `None`). -/
abbrev ServiceKey := Nat × Option Nat

/-- `ServiceLifetime` from `enums.py`. -/
inductive ServiceLifetime
  | SINGLETON
  | TRANSIENT
  | SCOPED
  deriving DecidableEq, Repr

/-- `RegistrationStrategy` from `enums.py`. -/
inductive RegistrationStrategy
  | TYPE_TO_TYPE
  | TYPE_TO_INSTANCE
  | TYPE_TO_FACTORY
  deriving DecidableEq, Repr

/-- The kind of a Python callable parameter, as far as
`_create_type_instance` inspects it: ordinary, `*args`
(`inspect.Parameter.VAR_POSITIONAL`) or `**kwargs` (`VAR_KEYWORD`). -/
inductive ParamKind
  | normal
  | VAR_POSITIONAL
  | VAR_KEYWORD
  deriving DecidableEq, Repr

/-- One constructor parameter as reported by
`inspect.signature(cls.__init__).parameters`. `annot = none` models
`inspect.Parameter.empty` (no type annotation); `dflt = none` models a
parameter without a default value. -/
structure CtorParam where
  name : String
  kind : ParamKind
  annot : Option Nat
  dflt : Option PyVal
  deriving DecidableEq, Repr

/-- A Python class, as far as the container inspects and invokes it: its
`__init__` parameters (in declaration order, including `self`) and whether
instantiating it raises a (domain) error. -/
structure ClassDef where
  ctorParams : List CtorParam
  ctorRaises : Option Nat
  deriving DecidableEq, Repr

/-- The environment of Python class definitions, indexed by type id. -/
abbrev ClassEnv := Nat → ClassDef

/-- What a factory does once its declared parameters have been resolved.
The container never looks inside the factory result, so the behaviours that
matter are: build a new object, return a pre-existing value (possibly
`None`), build an object but return `None`, or raise a domain error. -/
inductive FactoryBody
  | fresh
  | const (v : PyVal)
  | allocThenNone
  | raiseE (c : Nat)
  deriving DecidableEq, Repr

/-- One factory parameter as reported by `inspect.signature(factory)`.
`_invoke_factory` ignores defaults, so none are modelled. -/
structure FactoryParam where
  name : String
  kind : ParamKind
  annot : Option Nat
  deriving DecidableEq, Repr

/-- A deep-embedded factory callable. -/
structure Factory where
  params : List FactoryParam
  body : FactoryBody
  deriving DecidableEq, Repr

/-- `ServiceRegistration` from `registration.py`. `inst` is the
`instance` attribute; `inst = none` models `instance is None`. -/
structure ServiceRegistration where
  service_type : Nat
  implementation_type : Option Nat
  inst : Option Nat
  factory : Option Factory
  lifetime : ServiceLifetime
  key : Option Nat
  strategy : RegistrationStrategy
  deriving DecidableEq, Repr

/-- `ServiceRegistration.__init__`: stores the fields and derives the
strategy with the fixed precedence instance > factory > implementation-type
> self-registration. -/
def ServiceRegistration.make (service_type : Nat)
    (implementation_type : Option Nat) (inst : Option Nat)
    (factory : Option Factory) (lifetime : ServiceLifetime)
    (key : Option Nat) : ServiceRegistration :=
  match inst with
  | some i =>
      ⟨service_type, implementation_type, some i, factory, lifetime, key,
        .TYPE_TO_INSTANCE⟩
  | none =>
      match factory with
      | some f =>
          ⟨service_type, implementation_type, none, some f, lifetime, key,
            .TYPE_TO_FACTORY⟩
      | none =>
          match implementation_type with
          | some it =>
              ⟨service_type, some it, none, none, lifetime, key, .TYPE_TO_TYPE⟩
          | none =>
              ⟨service_type, some service_type, none, none, lifetime, key,
                .TYPE_TO_TYPE⟩

/-- Python `dict.__setitem__` on an association list: overwrite in place,
preserving insertion order, else append. -/
def dictSet {α : Type} (m : List (ServiceKey × α)) (k : ServiceKey)
    (v : α) : List (ServiceKey × α) :=
  match m with
  | [] => [(k, v)]
  | (k0, v0) :: rest =>
      if k0 = k then (k0, v) :: rest else (k0, v0) :: dictSet rest k v

/-- Python `dict.get` / `in` on an association list. -/
def dictGet {α : Type} (m : List (ServiceKey × α)) (k : ServiceKey) :
    Option α :=
  match m with
  | [] => none
  | (k0, v0) :: rest => if k0 = k then some v0 else dictGet rest k

/-- The error taxonomy from `exceptions.py` (exception messages elided;
`CircularDependencyException` stores `str(k)` of each stacked key, modelled
as the keys themselves), plus `userError` for exceptions raised by user
factories/constructors and the fuel artifact `outOfFuel`. -/
inductive DIError
  | serviceNotRegistered (service_type : Nat) (key : Option Nat)
  | circularDependency (chain : List ServiceKey)
  | invalidRegistration
  | scopeError
  | userError (code : Nat)
  | outOfFuel
  deriving DecidableEq, Repr

/-- `DIContainer` state: registry, singleton cache, current scope
(`none` = no active scope; the scope itself is its `_scoped_instances`
dict), resolution stack, plus the allocation counter modelling Python
object identity. -/
structure CState where
  registry : List (ServiceKey × ServiceRegistration)
  singletons : List (ServiceKey × PyVal)
  currentScope : Option (List (ServiceKey × PyVal))
  resolutionStack : List ServiceKey
  nextObj : Nat
  deriving DecidableEq, Repr

/-- A freshly constructed `DIContainer()`. -/
def initState : CState :=
  { registry := [], singletons := [], currentScope := none,
    resolutionStack := [], nextObj := 0 }

/-- `implementation_type(*dependencies)`: instantiating a class either
raises its constructor error or allocates a fresh object. -/
def instantiate (s : CState) (cd : ClassDef) : Except DIError PyVal × CState :=
  match cd.ctorRaises with
  | some c => (.error (.userError c), s)
  | none => (.ok (some s.nextObj), { s with nextObj := s.nextObj + 1 })

/-- Running a factory body after its dependencies have been resolved. -/
def runFactoryBody (s : CState) (b : FactoryBody) :
    Except DIError PyVal × CState :=
  match b with
  | .fresh => (.ok (some s.nextObj), { s with nextObj := s.nextObj + 1 })
  | .const v => (.ok v, s)
  | .allocThenNone => (.ok none, { s with nextObj := s.nextObj + 1 })
  | .raiseE c => (.error (.userError c), s)

/-- The type of the recursive resolver that the construction helpers call
back into (`self._resolve_internal` applied to a parameter type). -/
abbrev Resolver := CState → Nat → Option Nat → Except DIError PyVal × CState

/-- One iteration of the dependency loop of `_create_type_instance`: fail
on a missing annotation; when the parameter declares a default, resolve its
type only if that type is registered (`self._registry.is_registered`,
unkeyed) and use the default otherwise; a parameter without a default is
always resolved recursively (unkeyed). -/
def resolve_one_ctor_param (r : Resolver) (s : CState) (p : CtorParam) :
    Except DIError PyVal × CState :=
  match p.annot with
  | none => (.error .invalidRegistration, s)
  | some param_type =>
      match p.dflt with
      | some d =>
          if (dictGet s.registry (param_type, none)).isSome then
            r s param_type none
          else (.ok d, s)
      | none => r s param_type none

/-- The dependency-resolution loop of `_create_type_instance` over the
(already filtered) constructor parameters, in declaration order. -/
def resolve_ctor_params (r : Resolver) (s : CState) :
    List CtorParam → Except DIError (List PyVal) × CState
  | [] => (.ok [], s)
  | p :: rest =>
      match resolve_one_ctor_param r s p with
      | (.error e, s1) => (.error e, s1)
      | (.ok v, s1) =>
          match resolve_ctor_params r s1 rest with
          | (.ok vs, s2) => (.ok (v :: vs), s2)
          | (.error e, s2) => (.error e, s2)

/-- The parameter filter of `_create_type_instance`: skip `self` and
variadic (`*args`/`**kwargs`) parameters. -/
def ctorParamFilter (cd : ClassDef) : List CtorParam :=
  cd.ctorParams.filter
    (fun p => p.name ≠ "self" ∧ p.kind ≠ .VAR_POSITIONAL ∧
      p.kind ≠ .VAR_KEYWORD)

/-- `_create_type_instance`: filter out `self` and variadic parameters,
instantiate directly when nothing remains, otherwise resolve the
dependencies in declaration order and instantiate with them. -/
def create_type_instance (env : ClassEnv) (r : Resolver) (s : CState)
    (implementation_type : Nat) : Except DIError PyVal × CState :=
  match ctorParamFilter (env implementation_type) with
  | [] => instantiate s (env implementation_type)
  | p :: rest =>
      match resolve_ctor_params r s (p :: rest) with
      | (.ok _deps, s1) => instantiate s1 (env implementation_type)
      | (.error e, s1) => (.error e, s1)

/-- The dependency-resolution loop of `_invoke_factory`: every parameter
(variadic ones included — the code does not filter them here) must carry a
type annotation and is recursively resolved (unkeyed). -/
def resolve_factory_params (r : Resolver) (s : CState) :
    List FactoryParam → Except DIError (List PyVal) × CState
  | [] => (.ok [], s)
  | p :: rest =>
      match p.annot with
      | none => (.error .invalidRegistration, s)
      | some param_type =>
          match r s param_type none with
          | (.error e, s1) => (.error e, s1)
          | (.ok v, s1) =>
              match resolve_factory_params r s1 rest with
              | (.ok vs, s2) => (.ok (v :: vs), s2)
              | (.error e, s2) => (.error e, s2)

/-- `_invoke_factory`: invoke directly when the factory declares no
parameters, otherwise resolve every declared parameter first. -/
def invoke_factory (r : Resolver) (s : CState) (f : Factory) :
    Except DIError PyVal × CState :=
  match f.params with
  | [] => runFactoryBody s f.body
  | p :: rest =>
      match resolve_factory_params r s (p :: rest) with
      | (.ok _deps, s1) => runFactoryBody s1 f.body
      | (.error e, s1) => (.error e, s1)

/-- `_create_new_instance`: dispatch on the registration strategy. The
`else` branch of the Python code (unknown strategy) is unreachable because
the strategy enumeration is exhaustive here. -/
def create_new_instance (env : ClassEnv) (r : Resolver) (s : CState)
    (reg : ServiceRegistration) : Except DIError PyVal × CState :=
  match reg.strategy with
  | .TYPE_TO_INSTANCE => (.ok reg.inst, s)
  | .TYPE_TO_FACTORY =>
      match reg.factory with
      | none => (.error .invalidRegistration, s)
      | some f => invoke_factory r s f
  | .TYPE_TO_TYPE =>
      match reg.implementation_type with
      | none => (.error .invalidRegistration, s)
      | some it => create_type_instance env r s it

/-- `_create_instance`: lifetime dispatch. Singleton: consult the cache by
membership, construct and store on a miss. Scoped: require a current scope;
`DIScope.get_scoped_instance` is `dict.get`, which returns `None` both for
a missing key and for a stored `None`, so a stored `None` counts as a miss
here. Transient: always construct fresh. (Resolution never clears the
current scope, so the `getD []` on the write-back is unreachable padding
for totality.) -/
def create_instance_singleton (env : ClassEnv) (r : Resolver) (s : CState)
    (reg : ServiceRegistration) : Except DIError PyVal × CState :=
  match dictGet s.singletons (reg.service_type, reg.key) with
  | some v => (.ok v, s)
  | none =>
      match create_new_instance env r s reg with
      | (.ok v, s1) =>
          let cache1 := dictSet s1.singletons (reg.service_type, reg.key) v
          (.ok v, { s1 with singletons := cache1 })
      | (.error e, s1) => (.error e, s1)

def create_instance_scoped (env : ClassEnv) (r : Resolver) (s : CState)
    (reg : ServiceRegistration) : Except DIError PyVal × CState :=
  match s.currentScope with
  | none => (.error .scopeError, s)
  | some sc =>
      match (dictGet sc (reg.service_type, reg.key)).getD none with
      | some v => (.ok (some v), s)
      | none =>
          match create_new_instance env r s reg with
          | (.ok v, s1) =>
              let sc1 :=
                dictSet (s1.currentScope.getD []) (reg.service_type, reg.key) v
              (.ok v, { s1 with currentScope := some sc1 })
          | (.error e, s1) => (.error e, s1)

def create_instance (env : ClassEnv) (r : Resolver) (s : CState)
    (reg : ServiceRegistration) : Except DIError PyVal × CState :=
  match reg.lifetime with
  | .SINGLETON => create_instance_singleton env r s reg
  | .SCOPED => create_instance_scoped env r s reg
  | .TRANSIENT => create_new_instance env r s reg

/-- The `try` block of `_resolve_keyed_internal`: look up the registration
(the stack has already been pushed) and construct from it. -/
def rki_body (env : ClassEnv) (r : Resolver) (sp : CState)
    (service_type : Nat) (key : Option Nat) : Except DIError PyVal × CState :=
  match dictGet sp.registry (service_type, key) with
  | none => (.error (.serviceNotRegistered service_type key), sp)
  | some reg => create_instance env r sp reg

/-- The `finally` block of `_resolve_keyed_internal`: pop the frame's own
key, but only when it is still on top of the stack. -/
def finally_pop (service_key : ServiceKey)
    (p : Except DIError PyVal × CState) : Except DIError PyVal × CState :=
  if p.2.resolutionStack.getLast? = some service_key then
    (p.1, { p.2 with resolutionStack := p.2.resolutionStack.dropLast })
  else p

/-- Pushing a key onto the resolution stack. -/
def push_stack (s : CState) (service_key : ServiceKey) : CState :=
  { s with resolutionStack := s.resolutionStack ++ [service_key] }

/-- `_resolve_keyed_internal`. The cycle check (and the append of the
duplicate key) happens before the `try` block, so a detected cycle leaves
the duplicate on the stack; the `finally` pops the frame's own key only
when it is still on top. Fuel bounds the recursion. -/
def resolve_keyed_internal (env : ClassEnv) :
    Nat → CState → Nat → Option Nat → Except DIError PyVal × CState
  | 0, s, _, _ => (.error .outOfFuel, s)
  | fuel + 1, s, service_type, key =>
      if (service_type, key) ∈ s.resolutionStack then
        (.error (.circularDependency
            (s.resolutionStack ++ [(service_type, key)])),
          push_stack s (service_type, key))
      else
        finally_pop (service_type, key)
          (rki_body env (resolve_keyed_internal env fuel)
            (push_stack s (service_type, key)) service_type key)

/-- `_resolve_internal`. -/
def resolve_internal (env : ClassEnv) (fuel : Nat) (s : CState)
    (service_type : Nat) : Except DIError PyVal × CState :=
  resolve_keyed_internal env fuel s service_type none

/-- `resolve`: the top-level call clears the resolution stack in a
`finally`, on success and on failure alike. -/
def resolve (env : ClassEnv) (fuel : Nat) (s : CState)
    (service_type : Nat) : Except DIError PyVal × CState :=
  let p := resolve_keyed_internal env fuel s service_type none
  (p.1, { p.2 with resolutionStack := [] })

/-- `resolve_keyed`. -/
def resolve_keyed (env : ClassEnv) (fuel : Nat) (s : CState)
    (service_type : Nat) (key : Option Nat) : Except DIError PyVal × CState :=
  let p := resolve_keyed_internal env fuel s service_type key
  (p.1, { p.2 with resolutionStack := [] })

/-- `try_resolve`: converts only `ServiceNotRegisteredException` into a
`None` result; every other exception propagates; the stack is cleared in a
`finally` either way. -/
def try_resolve (env : ClassEnv) (fuel : Nat) (s : CState)
    (service_type : Nat) : Except DIError PyVal × CState :=
  let p := resolve_keyed_internal env fuel s service_type none
  let res := match p.1 with
    | .error (.serviceNotRegistered _ _) => .ok (none : PyVal)
    | other => other
  (res, { p.2 with resolutionStack := [] })

/-- `try_resolve_keyed`. -/
def try_resolve_keyed (env : ClassEnv) (fuel : Nat) (s : CState)
    (service_type : Nat) (key : Option Nat) : Except DIError PyVal × CState :=
  let p := resolve_keyed_internal env fuel s service_type key
  let res := match p.1 with
    | .error (.serviceNotRegistered _ _) => .ok (none : PyVal)
    | other => other
  (res, { p.2 with resolutionStack := [] })

/-- `ServiceRegistry.register` lifted to the container state: store the
registration under `(registration.service_type, registration.key)`,
overwriting any previous one. -/
def registryStore (s : CState) (registration : ServiceRegistration) : CState :=
  let reg1 :=
    dictSet s.registry (registration.service_type, registration.key)
      registration
  { s with registry := reg1 }

/-- `DIContainer.register`. `lifetimeArg = none` models a call that omits
the `lifetime` argument, whose Python default is `ServiceLifetime.TRANSIENT`. -/
def register (s : CState) (service_type : Nat)
    (implementation_type : Option Nat)
    (lifetimeArg : Option ServiceLifetime) : CState :=
  registryStore s (ServiceRegistration.make service_type implementation_type
    none none (lifetimeArg.getD .TRANSIENT) none)

/-- `DIContainer.register_keyed`. -/
def register_keyed (s : CState) (service_type : Nat) (key : Option Nat)
    (implementation_type : Option Nat)
    (lifetimeArg : Option ServiceLifetime) : CState :=
  registryStore s (ServiceRegistration.make service_type implementation_type
    none none (lifetimeArg.getD .TRANSIENT) key)

/-- `DIContainer.register_instance`: no lifetime parameter exists; the
stored lifetime is always `SINGLETON`. -/
def register_instance (s : CState) (service_type : Nat) (inst : Nat) :
    CState :=
  registryStore s (ServiceRegistration.make service_type none (some inst)
    none .SINGLETON none)

/-- `DIContainer.register_keyed_instance`. -/
def register_keyed_instance (s : CState) (service_type : Nat)
    (key : Option Nat) (inst : Nat) : CState :=
  registryStore s (ServiceRegistration.make service_type none (some inst)
    none .SINGLETON key)

/-- `DIContainer.register_factory`. -/
def register_factory (s : CState) (service_type : Nat) (factory : Factory)
    (lifetimeArg : Option ServiceLifetime) : CState :=
  registryStore s (ServiceRegistration.make service_type none none
    (some factory) (lifetimeArg.getD .TRANSIENT) none)

/-- `DIContainer.register_keyed_factory`. -/
def register_keyed_factory (s : CState) (service_type : Nat)
    (key : Option Nat) (factory : Factory)
    (lifetimeArg : Option ServiceLifetime) : CState :=
  registryStore s (ServiceRegistration.make service_type none none
    (some factory) (lifetimeArg.getD .TRANSIENT) key)

/-- `DIContainer.is_registered`. -/
def is_registered (s : CState) (service_type : Nat) (key : Option Nat) :
    Bool :=
  (dictGet s.registry (service_type, key)).isSome

/-- The disposal behaviour of a Python object: whether it exposes a
`dispose` attribute (`hasattr(instance, "dispose")`) and whether calling
that hook raises (with an error code). -/
structure ObjSpec where
  hasDispose : Bool
  disposeRaises : Option Nat
  deriving DecidableEq, Repr

/-- The environment of object behaviours, indexed by allocation id. -/
abbrev ObjEnv := Nat → ObjSpec

/-- The loop of `DIScope.dispose` over the held values (in insertion
order): call the hook of every value that exposes one; an exception from a
hook aborts the loop (there is no `try`/`except` around the call). Returns
the raised error (if any) and the list of objects whose hook was invoked,
in order. `hasattr(None, "dispose")` is false. -/
def dispose_loop (objs : ObjEnv) : List PyVal → Option Nat × List Nat
  | [] => (none, [])
  | v :: rest =>
      match v with
      | none => dispose_loop objs rest
      | some o =>
          if (objs o).hasDispose then
            match (objs o).disposeRaises with
            | some c => (some c, [o])
            | none =>
                let p := dispose_loop objs rest
                (p.1, o :: p.2)
          else dispose_loop objs rest

/-- `DIScope.dispose`: run the hooks, then clear the map — but the
`clear()` is only reached when no hook raised. Returns the propagated
error (if any), the hooks invoked, and the scope map afterwards. -/
def scope_dispose (objs : ObjEnv) (sc : List (ServiceKey × PyVal)) :
    Option Nat × List Nat × List (ServiceKey × PyVal) :=
  let p := dispose_loop objs (sc.map Prod.snd)
  match p.1 with
  | some c => (some c, p.2, sc)
  | none => (none, p.2, [])

/-- `DIContainer.begin_scope`: make the given scope (or a fresh empty one)
current, replacing whatever was current. -/
def begin_scope (s : CState) (sc : Option (List (ServiceKey × PyVal))) :
    CState :=
  { s with currentScope := some (sc.getD []) }

/-- `DIContainer.end_scope`: dispose the current scope (if any) and clear
the current-scope slot; when disposal raises, the exception propagates
before the slot is cleared. -/
def end_scope (objs : ObjEnv) (s : CState) : Option Nat × CState :=
  match s.currentScope with
  | none => (none, s)
  | some sc =>
      match scope_dispose objs sc with
      | (some c, _, sc1) => (some c, { s with currentScope := some sc1 })
      | (none, _, _) => (none, { s with currentScope := none })

/-- `ServiceRegistry.get_registrations_for_type`: every registration whose
service type matches, across all keys, in insertion order. -/
def get_registrations_for_type
    (registry : List (ServiceKey × ServiceRegistration))
    (service_type : Nat) : List ServiceRegistration :=
  (registry.filter (fun kv => kv.1.1 = service_type)).map Prod.snd

/-- The loop of `DIContainer.get_all_services`: construct each candidate
registration, silently skipping any that fails (`except Exception:
continue`); note that nothing clears the resolution stack afterwards. -/
def get_all_services_loop (env : ClassEnv) (fuel : Nat) (s : CState) :
    List ServiceRegistration → List PyVal × CState
  | [] => ([], s)
  | reg :: rest =>
      match create_instance env (resolve_keyed_internal env fuel) s reg with
      | (.ok v, s1) =>
          let p := get_all_services_loop env fuel s1 rest
          (v :: p.1, p.2)
      | (.error _, s1) => get_all_services_loop env fuel s1 rest

/-- `DIContainer.get_all_services`. -/
def get_all_services (env : ClassEnv) (fuel : Nat) (s : CState)
    (service_type : Nat) : List PyVal × CState :=
  get_all_services_loop env fuel s
    (get_registrations_for_type s.registry service_type)

/-- `DIContainer.clear`: empty the registry and the singleton cache, then
dispose and drop the current scope (when disposal raises, the slot keeps
the scope, registry and cache already cleared). -/
def clear (objs : ObjEnv) (s : CState) : Option Nat × CState :=
  let s1 := { s with registry := [], singletons := [] }
  match s1.currentScope with
  | none => (none, s1)
  | some sc =>
      match scope_dispose objs sc with
      | (some c, _, sc1) => (some c, { s1 with currentScope := some sc1 })
      | (none, _, _) => (none, { s1 with currentScope := none })

/-- One public call on a `DIContainer`, used to talk about what a client
can do to the container between two resolutions. -/
inductive Op
  | registerOp (service_type : Nat) (implementation_type : Option Nat)
      (lifetimeArg : Option ServiceLifetime)
  | registerKeyedOp (service_type : Nat) (key : Option Nat)
      (implementation_type : Option Nat) (lifetimeArg : Option ServiceLifetime)
  | registerInstanceOp (service_type : Nat) (inst : Nat)
  | registerKeyedInstanceOp (service_type : Nat) (key : Option Nat)
      (inst : Nat)
  | registerFactoryOp (service_type : Nat) (factory : Factory)
      (lifetimeArg : Option ServiceLifetime)
  | registerKeyedFactoryOp (service_type : Nat) (key : Option Nat)
      (factory : Factory) (lifetimeArg : Option ServiceLifetime)
  | resolveOp (fuel : Nat) (service_type : Nat)
  | resolveKeyedOp (fuel : Nat) (service_type : Nat) (key : Option Nat)
  | tryResolveOp (fuel : Nat) (service_type : Nat)
  | tryResolveKeyedOp (fuel : Nat) (service_type : Nat) (key : Option Nat)
  | getAllServicesOp (fuel : Nat) (service_type : Nat)
  | beginScopeOp (sc : Option (List (ServiceKey × PyVal)))
  | endScopeOp
  | clearOp
  deriving DecidableEq, Repr

/-- Run one public call for its effect on the container state (return
values and raised exceptions discarded). -/
def run_op (env : ClassEnv) (objs : ObjEnv) (s : CState) : Op → CState
  | .registerOp st it lt => register s st it lt
  | .registerKeyedOp st k it lt => register_keyed s st k it lt
  | .registerInstanceOp st i => register_instance s st i
  | .registerKeyedInstanceOp st k i => register_keyed_instance s st k i
  | .registerFactoryOp st f lt => register_factory s st f lt
  | .registerKeyedFactoryOp st k f lt => register_keyed_factory s st k f lt
  | .resolveOp fuel st => (resolve env fuel s st).2
  | .resolveKeyedOp fuel st k => (resolve_keyed env fuel s st k).2
  | .tryResolveOp fuel st => (try_resolve env fuel s st).2
  | .tryResolveKeyedOp fuel st k => (try_resolve_keyed env fuel s st k).2
  | .getAllServicesOp fuel st => (get_all_services env fuel s st).2
  | .beginScopeOp sc => begin_scope s sc
  | .endScopeOp => (end_scope objs s).2
  | .clearOp => (clear objs s).2

/-- Run a sequence of public calls. -/
def run_ops (env : ClassEnv) (objs : ObjEnv) : CState → List Op → CState
  | s, [] => s
  | s, op :: rest => run_ops env objs (run_op env objs s op) rest

/-! ### Basic dictionary lemmas -/

theorem dictGet_dictSet {α : Type} (m : List (ServiceKey × α))
    (k k' : ServiceKey) (v' : α) :
    dictGet (dictSet m k' v') k = if k = k' then some v' else dictGet m k := by
  induction m with
  | nil =>
      simp only [dictSet, dictGet]
      by_cases h : k' = k
      · subst h
        simp
      · rw [if_neg h, if_neg (fun hh => h hh.symm)]
  | cons hd tl ih =>
      obtain ⟨k0, v0⟩ := hd
      by_cases h0 : k0 = k'
      · subst h0
        by_cases h : k0 = k
        · subst h
          simp [dictSet, dictGet]
        · have h' : ¬k = k0 := fun hh => h hh.symm
          simp [dictSet, dictGet, h, h']
      · by_cases h : k0 = k
        · subst h
          simp [dictSet, dictGet, h0]
        · have h' : ¬k = k0 := fun hh => h hh.symm
          simp [dictSet, dictGet, h0, h, h', ih]

theorem dictGet_dictSet_self {α : Type} (m : List (ServiceKey × α))
    (k : ServiceKey) (v : α) : dictGet (dictSet m k v) k = some v := by
  simp [dictGet_dictSet]

/-! ### The resolution engine only grows the container

`Progress s s'` records what any construction step may do to the shared
container state: the registry is untouched, the allocation counter only
grows, and an entry already present in the singleton cache stays there with
the same value. -/

def Progress (s s' : CState) : Prop :=
  s'.registry = s.registry ∧ s.nextObj ≤ s'.nextObj ∧
    ∀ k v, dictGet s.singletons k = some v → dictGet s'.singletons k = some v

theorem Progress.refl (s : CState) : Progress s s :=
  ⟨rfl, Nat.le_refl _, fun _ _ h => h⟩

theorem Progress.trans {a b c : CState} (h1 : Progress a b)
    (h2 : Progress b c) : Progress a c :=
  ⟨h1.1 ▸ h2.1, Nat.le_trans h1.2.1 h2.2.1,
    fun k v h => h2.2.2 k v (h1.2.2 k v h)⟩

theorem progress_stack (s : CState) (x : List ServiceKey) :
    Progress s { s with resolutionStack := x } :=
  ⟨rfl, Nat.le_refl _, fun _ _ h => h⟩

theorem progress_scope (s : CState)
    (x : Option (List (ServiceKey × PyVal))) :
    Progress s { s with currentScope := x } :=
  ⟨rfl, Nat.le_refl _, fun _ _ h => h⟩

theorem instantiate_progress (s : CState) (cd : ClassDef) :
    Progress s (instantiate s cd).2 := by
  unfold instantiate
  cases cd.ctorRaises <;>
    exact ⟨rfl, by simp, fun _ _ h => h⟩

theorem runFactoryBody_progress (s : CState) (b : FactoryBody) :
    Progress s (runFactoryBody s b).2 := by
  unfold runFactoryBody
  cases b <;> exact ⟨rfl, by simp, fun _ _ h => h⟩

/-- A resolver that respects `Progress` on every call. -/
def ROk (r : Resolver) : Prop :=
  ∀ s st k, Progress s (r s st k).2

theorem resolve_one_ctor_param_progress {r : Resolver} (hr : ROk r)
    (s : CState) (p : CtorParam) :
    Progress s (resolve_one_ctor_param r s p).2 := by
  unfold resolve_one_ctor_param
  cases p.annot with
  | none => exact Progress.refl s
  | some param_type =>
      cases p.dflt with
      | some d =>
          by_cases hreg : (dictGet s.registry (param_type, none)).isSome
          · simpa [hreg] using hr s param_type none
          · simpa [hreg] using Progress.refl s
      | none => exact hr s param_type none

theorem resolve_ctor_params_progress {r : Resolver} (hr : ROk r)
    (ps : List CtorParam) :
    ∀ s : CState, Progress s (resolve_ctor_params r s ps).2 := by
  induction ps with
  | nil => exact fun s => Progress.refl s
  | cons p rest ih =>
      intro s
      unfold resolve_ctor_params
      rcases h1 : resolve_one_ctor_param r s p with ⟨res, s1⟩
      have hp1 : Progress s s1 := by
        have := resolve_one_ctor_param_progress hr s p
        rw [h1] at this
        exact this
      cases res with
      | error e => simpa [h1] using hp1
      | ok v =>
          rcases h2 : resolve_ctor_params r s1 rest with ⟨res2, s2⟩
          have hp2 : Progress s1 s2 := by
            have := ih s1
            rw [h2] at this
            exact this
          cases res2 <;> simpa [h1, h2] using hp1.trans hp2

theorem resolve_factory_params_progress {r : Resolver} (hr : ROk r)
    (ps : List FactoryParam) :
    ∀ s : CState, Progress s (resolve_factory_params r s ps).2 := by
  induction ps with
  | nil => exact fun s => Progress.refl s
  | cons p rest ih =>
      intro s
      unfold resolve_factory_params
      cases p.annot with
      | none => exact Progress.refl s
      | some param_type =>
          rcases h1 : r s param_type none with ⟨res, s1⟩
          have hp1 : Progress s s1 := by
            have := hr s param_type none
            rw [h1] at this
            exact this
          cases res with
          | error e => simpa [h1] using hp1
          | ok v =>
              rcases h2 : resolve_factory_params r s1 rest with ⟨res2, s2⟩
              have hp2 : Progress s1 s2 := by
                have := ih s1
                rw [h2] at this
                exact this
              cases res2 <;> simpa [h1, h2] using hp1.trans hp2

theorem invoke_factory_progress {r : Resolver} (hr : ROk r) (s : CState)
    (f : Factory) : Progress s (invoke_factory r s f).2 := by
  cases hf : f.params with
  | nil =>
      simp only [invoke_factory, hf]
      exact runFactoryBody_progress s f.body
  | cons p rest =>
      rcases h1 : resolve_factory_params r s (p :: rest) with ⟨res, s1⟩
      have hp1 : Progress s s1 := by
        have := resolve_factory_params_progress hr (p :: rest) s
        rw [h1] at this
        exact this
      cases res with
      | error e =>
          simp only [invoke_factory, hf, h1]
          exact hp1
      | ok vs =>
          simp only [invoke_factory, hf, h1]
          exact hp1.trans (runFactoryBody_progress s1 f.body)

theorem create_type_instance_progress (env : ClassEnv) {r : Resolver}
    (hr : ROk r) (s : CState) (it : Nat) :
    Progress s (create_type_instance env r s it).2 := by
  cases hf : ctorParamFilter (env it) with
  | nil =>
      simp only [create_type_instance, hf]
      exact instantiate_progress s (env it)
  | cons p rest =>
      rcases h1 : resolve_ctor_params r s (p :: rest) with ⟨res, s1⟩
      have hp1 : Progress s s1 := by
        have := resolve_ctor_params_progress hr (p :: rest) s
        rw [h1] at this
        exact this
      cases res with
      | error e =>
          simp only [create_type_instance, hf, h1]
          exact hp1
      | ok vs =>
          simp only [create_type_instance, hf, h1]
          exact hp1.trans (instantiate_progress s1 (env it))

theorem create_new_instance_progress (env : ClassEnv) {r : Resolver}
    (hr : ROk r) (s : CState) (reg : ServiceRegistration) :
    Progress s (create_new_instance env r s reg).2 := by
  unfold create_new_instance
  cases reg.strategy with
  | TYPE_TO_INSTANCE => exact Progress.refl s
  | TYPE_TO_FACTORY =>
      cases reg.factory with
      | none => exact Progress.refl s
      | some f => exact invoke_factory_progress hr s f
  | TYPE_TO_TYPE =>
      cases reg.implementation_type with
      | none => exact Progress.refl s
      | some it => exact create_type_instance_progress env hr s it

theorem create_instance_singleton_progress (env : ClassEnv) {r : Resolver}
    (hr : ROk r) (s : CState) (reg : ServiceRegistration) :
    Progress s (create_instance_singleton env r s reg).2 := by
  cases hc : dictGet s.singletons (reg.service_type, reg.key) with
  | some v =>
      simp only [create_instance_singleton, hc]
      exact Progress.refl s
  | none =>
      rcases h1 : create_new_instance env r s reg with ⟨res, s1⟩
      have hp1 : Progress s s1 := by
        have := create_new_instance_progress env hr s reg
        rw [h1] at this
        exact this
      cases res with
      | error e =>
          simp only [create_instance_singleton, hc, h1]
          exact hp1
      | ok v =>
          simp only [create_instance_singleton, hc, h1]
          refine ⟨hp1.1, hp1.2.1, fun k w hw => ?_⟩
          have hk : k ≠ (reg.service_type, reg.key) := by
            intro he
            rw [he, hc] at hw
            cases hw
          show dictGet (dictSet s1.singletons (reg.service_type, reg.key) v) k
            = some w
          rw [dictGet_dictSet, if_neg hk]
          exact hp1.2.2 k w hw

theorem create_instance_scoped_progress (env : ClassEnv) {r : Resolver}
    (hr : ROk r) (s : CState) (reg : ServiceRegistration) :
    Progress s (create_instance_scoped env r s reg).2 := by
  cases hsc : s.currentScope with
  | none =>
      simp only [create_instance_scoped, hsc]
      exact Progress.refl s
  | some sc =>
      cases hg : (dictGet sc (reg.service_type, reg.key)).getD none with
      | some v =>
          simp only [create_instance_scoped, hsc, hg]
          exact Progress.refl s
      | none =>
          rcases h1 : create_new_instance env r s reg with ⟨res, s1⟩
          have hp1 : Progress s s1 := by
            have := create_new_instance_progress env hr s reg
            rw [h1] at this
            exact this
          cases res with
          | error e =>
              simp only [create_instance_scoped, hsc, hg, h1]
              exact hp1
          | ok v =>
              simp only [create_instance_scoped, hsc, hg, h1]
              exact hp1.trans (progress_scope s1 _)

theorem create_instance_progress (env : ClassEnv) {r : Resolver}
    (hr : ROk r) (s : CState) (reg : ServiceRegistration) :
    Progress s (create_instance env r s reg).2 := by
  unfold create_instance
  cases reg.lifetime with
  | SINGLETON => exact create_instance_singleton_progress env hr s reg
  | SCOPED => exact create_instance_scoped_progress env hr s reg
  | TRANSIENT => exact create_new_instance_progress env hr s reg

theorem progress_push (s : CState) (sk : ServiceKey) :
    Progress s (push_stack s sk) :=
  ⟨rfl, Nat.le_refl _, fun _ _ h => h⟩

theorem rki_body_progress (env : ClassEnv) {r : Resolver} (hr : ROk r)
    (sp : CState) (st : Nat) (k : Option Nat) :
    Progress sp (rki_body env r sp st k).2 := by
  cases hg : dictGet sp.registry (st, k) with
  | none =>
      simp only [rki_body, hg]
      exact Progress.refl sp
  | some reg =>
      simp only [rki_body, hg]
      exact create_instance_progress env hr sp reg

theorem finally_pop_progress (sk : ServiceKey)
    (p : Except DIError PyVal × CState) :
    Progress p.2 (finally_pop sk p).2 := by
  unfold finally_pop
  by_cases h : p.2.resolutionStack.getLast? = some sk
  · simp only [h, if_true, reduceIte]
    exact progress_stack p.2 _
  · simp only [h, if_false, reduceIte]
    exact Progress.refl p.2

theorem resolve_keyed_internal_progress (env : ClassEnv) :
    ∀ fuel : Nat, ROk (resolve_keyed_internal env fuel) := by
  intro fuel
  induction fuel with
  | zero => exact fun s st k => Progress.refl s
  | succ n ih =>
      intro s st k
      by_cases hcyc : (st, k) ∈ s.resolutionStack
      · simp only [resolve_keyed_internal, hcyc, if_true, reduceIte]
        exact progress_push s _
      · simp only [resolve_keyed_internal, hcyc, if_false, reduceIte]
        have h0 : Progress s (push_stack s (st, k)) := progress_push s _
        have h1 : Progress (push_stack s (st, k))
            (rki_body env (resolve_keyed_internal env n)
              (push_stack s (st, k)) st k).2 :=
          rki_body_progress env ih _ st k
        exact (h0.trans h1).trans (finally_pop_progress _ _)

theorem get_all_services_loop_progress (env : ClassEnv) (fuel : Nat)
    (regs : List ServiceRegistration) :
    ∀ s : CState, Progress s (get_all_services_loop env fuel s regs).2 := by
  induction regs with
  | nil => exact fun s => Progress.refl s
  | cons reg rest ih =>
      intro s
      rcases h1 : create_instance env (resolve_keyed_internal env fuel) s reg
        with ⟨res, s1⟩
      have hp1 : Progress s s1 := by
        have := create_instance_progress env
          (resolve_keyed_internal_progress env fuel) s reg
        rw [h1] at this
        exact this
      cases res with
      | ok v =>
          simp only [get_all_services_loop, h1]
          exact hp1.trans (ih s1)
      | error e =>
          simp only [get_all_services_loop, h1]
          exact hp1.trans (ih s1)

theorem end_scope_keeps_singletons (objs : ObjEnv) (s : CState) :
    (end_scope objs s).2.singletons = s.singletons := by
  cases hsc : s.currentScope with
  | none => simp [end_scope, hsc]
  | some sc =>
      rcases hd : scope_dispose objs sc with ⟨e, inv, sc1⟩
      cases e <;> simp [end_scope, hsc, hd]

theorem run_op_keeps_singletons (env : ClassEnv) (objs : ObjEnv) (op : Op)
    (hop : op ≠ Op.clearOp) (s : CState) :
    ∀ k v, dictGet s.singletons k = some v →
      dictGet (run_op env objs s op).singletons k = some v := by
  intro k v h
  cases op with
  | registerOp st it lt => simpa [run_op, register, registryStore] using h
  | registerKeyedOp st kk it lt =>
      simpa [run_op, register_keyed, registryStore] using h
  | registerInstanceOp st i =>
      simpa [run_op, register_instance, registryStore] using h
  | registerKeyedInstanceOp st kk i =>
      simpa [run_op, register_keyed_instance, registryStore] using h
  | registerFactoryOp st f lt =>
      simpa [run_op, register_factory, registryStore] using h
  | registerKeyedFactoryOp st kk f lt =>
      simpa [run_op, register_keyed_factory, registryStore] using h
  | resolveOp fuel st =>
      have := (resolve_keyed_internal_progress env fuel s st none).2.2 k v h
      simpa [run_op, resolve] using this
  | resolveKeyedOp fuel st kk =>
      have := (resolve_keyed_internal_progress env fuel s st kk).2.2 k v h
      simpa [run_op, resolve_keyed] using this
  | tryResolveOp fuel st =>
      have := (resolve_keyed_internal_progress env fuel s st none).2.2 k v h
      simpa [run_op, try_resolve] using this
  | tryResolveKeyedOp fuel st kk =>
      have := (resolve_keyed_internal_progress env fuel s st kk).2.2 k v h
      simpa [run_op, try_resolve_keyed] using this
  | getAllServicesOp fuel st =>
      have := (get_all_services_loop_progress env fuel
        (get_registrations_for_type s.registry st) s).2.2 k v h
      simpa [run_op, get_all_services] using this
  | beginScopeOp sc => simpa [run_op, begin_scope] using h
  | endScopeOp =>
      have heq := end_scope_keeps_singletons objs s
      simpa [run_op, heq] using h
  | clearOp => exact absurd rfl hop

theorem run_ops_keep_singletons (env : ClassEnv) (objs : ObjEnv)
    (ops : List Op) (hops : Op.clearOp ∉ ops) :
    ∀ s k v, dictGet s.singletons k = some v →
      dictGet (run_ops env objs s ops).singletons k = some v := by
  induction ops with
  | nil => intro s k v h; simpa [run_ops] using h
  | cons op rest ih =>
      intro s k v h
      have hop : op ≠ Op.clearOp := by
        intro he
        exact hops (he ▸ List.mem_cons_self op rest)
      have hrest : Op.clearOp ∉ rest := fun hm => hops (List.mem_cons_of_mem _ hm)
      simp only [run_ops]
      exact ih hrest _ k v (run_op_keeps_singletons env objs op hop s k v h)

/-- After a successful construction of a Singleton registration through the
`try` block, the singleton cache holds the returned value under the
requested key. -/
theorem rki_body_singleton_caches (env : ClassEnv) (r : Resolver)
    (sp : CState) (st : Nat) (key : Option Nat) (v : PyVal) (s2 : CState)
    (reg : ServiceRegistration)
    (hreg : dictGet sp.registry (st, key) = some reg)
    (hlt : reg.lifetime = .SINGLETON)
    (hst : reg.service_type = st) (hk : reg.key = key)
    (hb : rki_body env r sp st key = (.ok v, s2)) :
    dictGet s2.singletons (st, key) = some v := by
  simp only [rki_body, hreg] at hb
  rw [create_instance.eq_def, hlt] at hb
  cases hc : dictGet sp.singletons (reg.service_type, reg.key) with
  | some w =>
      simp only [create_instance_singleton, hc] at hb
      injection hb with hb1 hb2
      injection hb1 with hb1
      rw [← hb2, ← hb1]
      rw [hst, hk] at hc
      exact hc
  | none =>
      rcases h1 : create_new_instance env r sp reg with ⟨res1, s1⟩
      simp only [create_instance_singleton, hc, h1] at hb
      cases res1 with
      | error e => cases hb
      | ok w =>
          injection hb with hb1 hb2
          injection hb1 with hb1
          rw [← hb2, ← hb1]
          show dictGet (dictSet s1.singletons (reg.service_type, reg.key) w)
            (st, key) = some w
          rw [hst, hk, dictGet_dictSet_self]

/-- A successful top-level-internal resolution of a Singleton registration
leaves the returned value in the singleton cache. -/
theorem rki_singleton_caches (env : ClassEnv) (fuel : Nat) (s : CState)
    (st : Nat) (key : Option Nat) (v : PyVal) (s' : CState)
    (reg : ServiceRegistration)
    (hreg : dictGet s.registry (st, key) = some reg)
    (hlt : reg.lifetime = .SINGLETON)
    (hst : reg.service_type = st) (hk : reg.key = key)
    (h : resolve_keyed_internal env fuel s st key = (.ok v, s')) :
    dictGet s'.singletons (st, key) = some v := by
  cases fuel with
  | zero => cases h
  | succ n =>
      simp only [resolve_keyed_internal] at h
      by_cases hcyc : (st, key) ∈ s.resolutionStack
      · rw [if_pos hcyc] at h
        cases h
      · rw [if_neg hcyc] at h
        rcases hb : rki_body env (resolve_keyed_internal env n)
          (push_stack s (st, key)) st key with ⟨res, s2⟩
        rw [hb] at h
        have hcache : dictGet s2.singletons (st, key) = some v := by
          have hres : res = .ok v := by
            simp only [finally_pop] at h
            by_cases hl : s2.resolutionStack.getLast? = some (st, key)
            · rw [if_pos hl] at h
              injection h with h1 h2
            · rw [if_neg hl] at h
              injection h with h1 h2
          rw [hres] at hb
          exact rki_body_singleton_caches env _ _ st key v s2 reg
            (by simpa [push_stack] using hreg) hlt hst hk hb
        have hs2 : s'.singletons = s2.singletons := by
          simp only [finally_pop] at h
          by_cases hl : s2.resolutionStack.getLast? = some (st, key)
          · rw [if_pos hl] at h
            injection h with h1 h2
            rw [← h2]
          · rw [if_neg hl] at h
            injection h with h1 h2
            rw [← h2]
        rw [hs2]
        exact hcache

/-- A resolution of a Singleton registration that finds the key in the
singleton cache returns exactly the cached value. -/
theorem rki_singleton_hit (env : ClassEnv) (fuel : Nat) (s : CState)
    (st : Nat) (key : Option Nat) (v v2 : PyVal) (s' : CState)
    (reg : ServiceRegistration)
    (hreg : dictGet s.registry (st, key) = some reg)
    (hlt : reg.lifetime = .SINGLETON)
    (hst : reg.service_type = st) (hk : reg.key = key)
    (hcache : dictGet s.singletons (st, key) = some v)
    (h : resolve_keyed_internal env fuel s st key = (.ok v2, s')) :
    v2 = v := by
  cases fuel with
  | zero => cases h
  | succ n =>
      simp only [resolve_keyed_internal] at h
      by_cases hcyc : (st, key) ∈ s.resolutionStack
      · rw [if_pos hcyc] at h
        cases h
      · rw [if_neg hcyc] at h
        have hb : rki_body env (resolve_keyed_internal env n)
            (push_stack s (st, key)) st key = (.ok v, push_stack s (st, key)) := by
          simp only [rki_body]
          rw [show dictGet (push_stack s (st, key)).registry (st, key)
            = some reg from by simpa [push_stack] using hreg]
          show create_instance env (resolve_keyed_internal env n)
            (push_stack s (st, key)) reg = (.ok v, push_stack s (st, key))
          rw [create_instance.eq_def, hlt]
          simp only [create_instance_singleton]
          rw [hst, hk]
          rw [show dictGet (push_stack s (st, key)).singletons (st, key)
            = some v from by simpa [push_stack] using hcache]
        rw [hb] at h
        simp only [finally_pop] at h
        by_cases hl : (push_stack s (st, key)).resolutionStack.getLast?
            = some (st, key)
        · rw [if_pos hl] at h
          injection h with h1 h2
          injection h1 with h1
          exact h1.symm
        · rw [if_neg hl] at h
          injection h with h1 h2
          injection h1 with h1
          exact h1.symm

/-- A successful instantiation returns the object freshly allocated at the
current counter and bumps the counter. -/
theorem instantiate_fresh (s : CState) (cd : ClassDef) (v : PyVal)
    (s' : CState) (h : instantiate s cd = (.ok v, s')) :
    v = some s.nextObj ∧ s'.nextObj = s.nextObj + 1 := by
  unfold instantiate at h
  cases hr : cd.ctorRaises with
  | some c =>
      rw [hr] at h
      cases h
  | none =>
      rw [hr] at h
      injection h with h1 h2
      injection h1 with h1
      exact ⟨h1.symm, by rw [← h2]⟩

/-- A successful `_create_type_instance` returns an object allocated during
the call: its id is at least the starting counter and below the final one. -/
theorem create_type_instance_fresh (env : ClassEnv) {r : Resolver}
    (hr : ROk r) (s : CState) (it : Nat) (v : PyVal) (s' : CState)
    (h : create_type_instance env r s it = (.ok v, s')) :
    ∃ n, v = some n ∧ s.nextObj ≤ n ∧ n < s'.nextObj := by
  cases hf : ctorParamFilter (env it) with
  | nil =>
      simp only [create_type_instance, hf] at h
      obtain ⟨h1, h2⟩ := instantiate_fresh s (env it) v s' h
      exact ⟨s.nextObj, h1, Nat.le_refl _, by omega⟩
  | cons p rest =>
      rcases h1 : resolve_ctor_params r s (p :: rest) with ⟨res, s1⟩
      simp only [create_type_instance, hf, h1] at h
      cases res with
      | error e => cases h
      | ok vs =>
          have hmono : s.nextObj ≤ s1.nextObj := by
            have := resolve_ctor_params_progress hr (p :: rest) s
            rw [h1] at this
            exact this.2.1
          obtain ⟨ha, hb⟩ := instantiate_fresh s1 (env it) v s' h
          exact ⟨s1.nextObj, ha, hmono, by omega⟩

/-- A successful resolution of a Transient implementation-type registration
returns an object allocated during that very call. -/
theorem rki_transient_type_fresh (env : ClassEnv) (fuel : Nat) (s : CState)
    (st : Nat) (key : Option Nat) (v : PyVal) (s' : CState)
    (reg : ServiceRegistration)
    (hreg : dictGet s.registry (st, key) = some reg)
    (hlt : reg.lifetime = .TRANSIENT)
    (hstrat : reg.strategy = .TYPE_TO_TYPE)
    (h : resolve_keyed_internal env fuel s st key = (.ok v, s')) :
    ∃ n, v = some n ∧ s.nextObj ≤ n ∧ n < s'.nextObj := by
  cases fuel with
  | zero => cases h
  | succ n =>
      simp only [resolve_keyed_internal] at h
      by_cases hcyc : (st, key) ∈ s.resolutionStack
      · rw [if_pos hcyc] at h
        cases h
      · rw [if_neg hcyc] at h
        rcases hb : rki_body env (resolve_keyed_internal env n)
          (push_stack s (st, key)) st key with ⟨res, s2⟩
        rw [hb] at h
        have hsplit : res = .ok v ∧ s'.nextObj = s2.nextObj := by
          simp only [finally_pop] at h
          by_cases hl : s2.resolutionStack.getLast? = some (st, key)
          · rw [if_pos hl] at h
            injection h with ha hs
            exact ⟨ha, by rw [← hs]⟩
          · rw [if_neg hl] at h
            injection h with ha hs
            exact ⟨ha, by rw [← hs]⟩
        have hpreg : dictGet (push_stack s (st, key)).registry (st, key)
            = some reg := by simpa [push_stack] using hreg
        rw [hsplit.1] at hb
        cases hit : reg.implementation_type with
        | none =>
            simp only [rki_body, hpreg, create_instance.eq_def, hlt,
              create_new_instance.eq_def, hstrat, hit] at hb
            cases hb
        | some it =>
            simp only [rki_body, hpreg, create_instance.eq_def, hlt,
              create_new_instance.eq_def, hstrat, hit] at hb
            obtain ⟨m, hv, hlo, hhi⟩ := create_type_instance_fresh env
              (resolve_keyed_internal_progress env n) _ it v s2 hb
            refine ⟨m, hv, ?_, ?_⟩
            · simpa [push_stack] using hlo
            · omega

/-! ### Concrete scenarios used by the claims -/

/-- A class whose `__init__` takes only `self`. -/
def cdNoDeps : ClassDef := ⟨[⟨"self", .normal, none, none⟩], none⟩

/-- A class whose `__init__` takes `self` and one required dependency
annotated with type `dep`. -/
def mkNeedClass (dep : Nat) : ClassDef :=
  ⟨[⟨"self", .normal, none, none⟩, ⟨"dep", .normal, some dep, none⟩], none⟩

/-- Class environment for the circular scenario of C7: type id 10 is a
class that requires service 0 (which is registered with implementation 10,
closing the cycle). -/
def c7_env : ClassEnv := fun t => if t = 10 then mkNeedClass 0 else cdNoDeps

def c7_state : CState := register initState 0 (some 10) none

/-- C7 (counterexample): `get_all_services` swallows a circular-dependency
failure of a candidate but never clears the resolution stack, and the cycle
branch appends the duplicate key outside the `try`/`finally`, so the repeated
key survives into later calls: after this call the stack is `[(0, none)]`,
not `[]`, refuting the claim that every top-level public call (including
`getAllServices`) leaves the stack empty. -/
theorem c7_counterexample :
    (get_all_services c7_env 9 c7_state 0).2.resolutionStack = [(0, none)] ∧
    (get_all_services c7_env 9 c7_state 0).2.resolutionStack ≠ [] := by
  constructor <;> decide

/-- C7 (amended): the four resolver entry points `resolve`,
`resolve_keyed`, `try_resolve` and `try_resolve_keyed` clear the resolution
stack in a finally-style guarantee, on success and failure alike, so later
calls through them never inherit stale cycle-detection state;
`get_all_services` gives no such guarantee. -/
theorem c7_amended (env : ClassEnv) (fuel : Nat) (s : CState) (st : Nat)
    (key : Option Nat) :
    (resolve env fuel s st).2.resolutionStack = [] ∧
    (resolve_keyed env fuel s st key).2.resolutionStack = [] ∧
    (try_resolve env fuel s st).2.resolutionStack = [] ∧
    (try_resolve_keyed env fuel s st key).2.resolutionStack = [] :=
  ⟨rfl, rfl, rfl, rfl⟩

/-- The fields of a `ServiceRegistration` built by the constructor: the
strategy derivation never alters `service_type`, `lifetime` or `key`. -/
theorem make_fields (st : Nat) (impl inst : Option Nat)
    (fac : Option Factory) (lt : ServiceLifetime) (k : Option Nat) :
    (ServiceRegistration.make st impl inst fac lt k).service_type = st ∧
    (ServiceRegistration.make st impl inst fac lt k).lifetime = lt ∧
    (ServiceRegistration.make st impl inst fac lt k).key = k := by
  unfold ServiceRegistration.make
  cases inst <;> cases fac <;> cases impl <;> exact ⟨rfl, rfl, rfl⟩

/-- A stored registration can be read back under its own key. -/
theorem registryStore_lookup (s : CState)
    (registration : ServiceRegistration) :
    dictGet (registryStore s registration).registry
      (registration.service_type, registration.key) = some registration := by
  simp [registryStore, dictGet_dictSet_self]

/-- The lifetime stored by a `register*` variant can be read back under the
written key. -/
theorem registered_lifetime (s : CState) (st : Nat) (impl inst : Option Nat)
    (fac : Option Factory) (lt : ServiceLifetime) (k : Option Nat) :
    (dictGet (registryStore s
        (ServiceRegistration.make st impl inst fac lt k)).registry
      (st, k)).map ServiceRegistration.lifetime = some lt := by
  obtain ⟨h1, h2, h3⟩ := make_fields st impl inst fac lt k
  rw [show ((st, k) : ServiceKey)
    = ((ServiceRegistration.make st impl inst fac lt k).service_type,
       (ServiceRegistration.make st impl inst fac lt k).key) from by
      rw [h1, h3]]
  rw [registryStore_lookup]
  simp [h2]

/-- What a `register*` call may touch: only the registry. -/
def RegistryWriteOnly (s s' : CState) : Prop :=
  s'.singletons = s.singletons ∧ s'.currentScope = s.currentScope ∧
    s'.resolutionStack = s.resolutionStack ∧ s'.nextObj = s.nextObj

/-- C8 (counterexample): `register_instance` accepts no lifetime argument,
so the caller cannot specify one, yet the stored registration's lifetime is
`SINGLETON` — refuting the claim that every `register*` variant stores
lifetime Transient whenever the caller does not specify one. -/
theorem c8_counterexample :
    (dictGet (register_instance initState 0 5).registry (0, none)).map
      ServiceRegistration.lifetime = some ServiceLifetime.SINGLETON ∧
    (dictGet (register_instance initState 0 5).registry (0, none)).map
      ServiceRegistration.lifetime ≠ some ServiceLifetime.TRANSIENT := by
  constructor <;> decide

/-- C8 (amended): every `register*` variant is a pure registry write (the
singleton cache, current scope, resolution stack and allocation counter are
untouched); the direct, keyed, factory and keyed-factory variants store
lifetime Transient when the caller omits the lifetime argument, while the
instance and keyed-instance variants (which take no lifetime argument)
always store lifetime Singleton. -/
theorem c8_amended (s : CState) (st : Nat) (key : Option Nat)
    (impl : Option Nat) (i : Nat) (f : Factory) :
    (RegistryWriteOnly s (register s st impl none) ∧
      (dictGet (register s st impl none).registry (st, none)).map
        ServiceRegistration.lifetime = some .TRANSIENT) ∧
    (RegistryWriteOnly s (register_keyed s st key impl none) ∧
      (dictGet (register_keyed s st key impl none).registry (st, key)).map
        ServiceRegistration.lifetime = some .TRANSIENT) ∧
    (RegistryWriteOnly s (register_factory s st f none) ∧
      (dictGet (register_factory s st f none).registry (st, none)).map
        ServiceRegistration.lifetime = some .TRANSIENT) ∧
    (RegistryWriteOnly s (register_keyed_factory s st key f none) ∧
      (dictGet (register_keyed_factory s st key f none).registry
        (st, key)).map ServiceRegistration.lifetime = some .TRANSIENT) ∧
    (RegistryWriteOnly s (register_instance s st i) ∧
      (dictGet (register_instance s st i).registry (st, none)).map
        ServiceRegistration.lifetime = some .SINGLETON) ∧
    (RegistryWriteOnly s (register_keyed_instance s st key i) ∧
      (dictGet (register_keyed_instance s st key i).registry (st, key)).map
        ServiceRegistration.lifetime = some .SINGLETON) := by
  refine ⟨⟨?_, ?_⟩, ⟨?_, ?_⟩, ⟨?_, ?_⟩, ⟨?_, ?_⟩, ⟨?_, ?_⟩, ⟨?_, ?_⟩⟩ <;>
    simp only [register, register_keyed, register_factory,
      register_keyed_factory, register_instance, register_keyed_instance,
      Option.getD] <;>
    first
      | exact ⟨rfl, rfl, rfl, rfl⟩
      | exact registered_lifetime _ _ _ _ _ _ _

/-! ### C4: scope disposal -/

/-- The objects among a list of held values that expose a `dispose` hook,
in order. -/
def hooksOf (objs : ObjEnv) (vs : List PyVal) : List Nat :=
  vs.filterMap (fun v => match v with
    | none => none
    | some o => if (objs o).hasDispose then some o else none)

theorem dispose_loop_ok (objs : ObjEnv) (vs : List PyVal)
    (h : ∀ v ∈ vs, ∀ o, v = some o → (objs o).disposeRaises = none) :
    dispose_loop objs vs = (none, hooksOf objs vs) := by
  induction vs with
  | nil => simp [dispose_loop, hooksOf]
  | cons v rest ih =>
      have hrest : ∀ w ∈ rest, ∀ o, w = some o → (objs o).disposeRaises = none :=
        fun w hw => h w (List.mem_cons_of_mem _ hw)
      cases v with
      | none =>
          simp only [dispose_loop, hooksOf, List.filterMap_cons]
          simpa [hooksOf] using ih hrest
      | some o =>
          have ho : (objs o).disposeRaises = none :=
            h (some o) (List.mem_cons_self _ _) o rfl
          by_cases hd : (objs o).hasDispose
          · simp only [dispose_loop, hd, ho, if_true, reduceIte, ih hrest]
            simp [hooksOf, List.filterMap_cons, hd]
          · simp only [dispose_loop, hd, if_false, reduceIte, ih hrest]
            simp [hooksOf, List.filterMap_cons, hd]

theorem dispose_loop_raise (objs : ObjEnv) (o : Nat) (c : Nat)
    (post : List PyVal) (hhas : (objs o).hasDispose = true)
    (hra : (objs o).disposeRaises = some c) :
    ∀ pre : List PyVal,
      (∀ w ∈ pre, ∀ o2, w = some o2 → (objs o2).disposeRaises = none) →
      dispose_loop objs (pre ++ some o :: post)
        = (some c, hooksOf objs pre ++ [o]) := by
  intro pre
  induction pre with
  | nil =>
      intro _
      simp [dispose_loop, hhas, hra, hooksOf]
  | cons w rest ih =>
      intro hpre
      have hrest : ∀ w2 ∈ rest, ∀ o2, w2 = some o2 →
          (objs o2).disposeRaises = none :=
        fun w2 hw2 => hpre w2 (List.mem_cons_of_mem _ hw2)
      cases w with
      | none =>
          rw [List.cons_append]
          simp only [dispose_loop]
          rw [ih hrest]
          simp [hooksOf, List.filterMap_cons]
      | some o2 =>
          have ho2 : (objs o2).disposeRaises = none :=
            hpre (some o2) (List.mem_cons_self _ _) o2 rfl
          cases hd : (objs o2).hasDispose
          · rw [List.cons_append]
            simp only [dispose_loop, hd, Bool.false_eq_true, if_false,
              reduceIte]
            rw [ih hrest]
            simp [hooksOf, List.filterMap_cons, hd]
          · rw [List.cons_append]
            simp only [dispose_loop, hd, ho2, if_true, reduceIte]
            rw [ih hrest]
            simp [hooksOf, List.filterMap_cons, hd]

/-- Object environment for the C4 counterexample: object 0 has a hook that
raises error 7; object 1 has a well-behaved hook. -/
def c4_objs : ObjEnv := fun o => if o = 0 then ⟨true, some 7⟩ else ⟨true, none⟩

/-- A scope holding objects 0 and 1, in that insertion order. -/
def c4_scope : List (ServiceKey × PyVal) :=
  [((0, none), some 0), ((1, none), some 1)]

/-- C4 (counterexample): `DIScope.dispose` wraps no `try`/`except` around
each hook, so when object 0's hook raises, object 1 — although it exposes a
hook — is never disposed and the scope's instance map is not cleared,
refuting the best-effort claim. -/
theorem c4_counterexample :
    (scope_dispose c4_objs c4_scope).1 = some 7 ∧
    1 ∉ (scope_dispose c4_objs c4_scope).2.1 ∧
    (scope_dispose c4_objs c4_scope).2.2 = c4_scope ∧
    (scope_dispose c4_objs c4_scope).2.2 ≠ [] := by
  refine ⟨?_, ?_, ?_, ?_⟩ <;> decide

/-- C4 (amended): disposal walks the held instances in insertion order and
stops at the first raising hook. When no hook raises, every instance that
exposes a hook is disposed and the map is cleared; when some hook raises,
that exception propagates, the instances after it are not disposed, and the
map is left untouched. -/
theorem c4_amended (objs : ObjEnv) (sc : List (ServiceKey × PyVal)) :
    ((∀ p ∈ sc, ∀ o, p.2 = some o → (objs o).disposeRaises = none) →
      scope_dispose objs sc
        = (none, hooksOf objs (sc.map Prod.snd), [])) ∧
    (∀ pre (o c : Nat) post,
      sc.map Prod.snd = pre ++ some o :: post →
      (∀ w ∈ pre, ∀ o2, w = some o2 → (objs o2).disposeRaises = none) →
      (objs o).hasDispose = true → (objs o).disposeRaises = some c →
      scope_dispose objs sc = (some c, hooksOf objs pre ++ [o], sc)) := by
  constructor
  · intro h
    have hvals : ∀ v ∈ sc.map Prod.snd, ∀ o, v = some o →
        (objs o).disposeRaises = none := by
      intro v hv o hvo
      obtain ⟨p, hp, rfl⟩ := List.mem_map.1 hv
      exact h p hp o hvo
    simp [scope_dispose, dispose_loop_ok objs _ hvals]
  · intro pre o c post hdec hpre hhas hra
    simp [scope_dispose, hdec, dispose_loop_raise objs o c post hhas hra pre hpre]

/-- Object environment whose hooks never raise. -/
def c4w_objs : ObjEnv := fun _ => ⟨true, none⟩

/-- Witness for C4 (amended) at concrete inputs: with well-behaved hooks
both objects are disposed and the map is cleared; with object 0's hook
raising error 7 the error propagates, object 1 is skipped and the map is
kept. -/
theorem c4_amended_witness :
    scope_dispose c4w_objs c4_scope = (none, [0, 1], []) ∧
    scope_dispose c4_objs c4_scope = (some 7, [0], c4_scope) := by
  constructor
  · have h := (c4_amended c4w_objs c4_scope).1 (by intro p hp o ho; rfl)
    rw [show hooksOf c4w_objs (c4_scope.map Prod.snd) = [0, 1] from by decide]
      at h
    exact h
  · have h := (c4_amended c4_objs c4_scope).2 [] 0 7 [some 1] (by decide)
      (by intro w hw o2 h2; exact absurd hw (List.not_mem_nil w))
      (by decide) (by decide)
    rw [show hooksOf c4_objs [] ++ [0] = [0] from by decide] at h
    exact h

deriving instance DecidableEq for Except

/-! ### C6: variadic parameters -/

/-- Container in which service 0 is registered with a factory whose only
parameter is an unannotated `*args`. -/
def c6_state : CState :=
  register_factory initState 0
    ⟨[⟨"args", .VAR_POSITIONAL, none⟩], .const (some 9)⟩ none

def plainEnv : ClassEnv := fun _ => cdNoDeps

/-- C6 (counterexample): `_invoke_factory` does not filter variadic
parameters. A factory whose only parameter is an unannotated `*args` is not
invoked with no arguments (which would return object 9): resolution fails
with InvalidRegistration because the variadic parameter has no type
annotation. -/
theorem c6_counterexample :
    (resolve plainEnv 9 c6_state 0).1 = .error .invalidRegistration ∧
    (resolve plainEnv 9 c6_state 0).1 ≠ .ok (some 9) := by
  constructor <;> decide

/-- C6 (amended): only the implementation-type (constructor) strategy
ignores variadic parameters — a class whose constructor parameters are all
`self` or variadic is instantiated directly with no arguments and no
recursive resolution; the factory strategy enumerates every declared
parameter including variadic ones, so a factory whose only parameter is
variadic and unannotated fails with InvalidRegistration instead of being
invoked with no arguments. -/
theorem c6_amended (env : ClassEnv) (r : Resolver) (s : CState) (it : Nat)
    (nm : String) (kd : ParamKind) (b : FactoryBody)
    (hall : ∀ p ∈ (env it).ctorParams,
      p.name = "self" ∨ p.kind = .VAR_POSITIONAL ∨ p.kind = .VAR_KEYWORD)
    (hraise : (env it).ctorRaises = none) :
    create_type_instance env r s it
      = (.ok (some s.nextObj), { s with nextObj := s.nextObj + 1 }) ∧
    invoke_factory r s ⟨[⟨nm, kd, none⟩], b⟩
      = (.error .invalidRegistration, s) := by
  constructor
  · have hf : ctorParamFilter (env it) = [] := by
      rw [ctorParamFilter, List.filter_eq_nil_iff]
      intro p hp
      rcases hall p hp with h | h | h <;> simp [h]
    simp only [create_type_instance, hf, instantiate, hraise]
  · simp [invoke_factory, resolve_factory_params]

/-- Witness for C6 (amended): a class whose constructor takes `self`,
`*args` and `**kwargs` resolves to a fresh instance, and the variadic
factory from the counterexample state fails with InvalidRegistration. -/
def c6w_env : ClassEnv := fun t =>
  if t = 10 then
    ⟨[⟨"self", .normal, none, none⟩,
      ⟨"args", .VAR_POSITIONAL, none, none⟩,
      ⟨"kwargs", .VAR_KEYWORD, none, none⟩], none⟩
  else cdNoDeps

theorem c6_amended_witness :
    create_type_instance c6w_env (resolve_keyed_internal c6w_env 5)
        initState 10
      = (.ok (some 0), { initState with nextObj := 1 }) ∧
    invoke_factory (resolve_keyed_internal c6w_env 5) initState
        ⟨[⟨"args", .VAR_POSITIONAL, none⟩], .const (some 9)⟩
      = (.error .invalidRegistration, initState) :=
  c6_amended c6w_env (resolve_keyed_internal c6w_env 5) initState 10
    "args" .VAR_POSITIONAL (.const (some 9)) (by decide) (by decide)

/-! ### C9: scoped None caching -/

/-- Container with an active empty scope and service 0 registered Scoped
with a factory that constructs an object but returns `None` (so that the
allocation counter witnesses each run of the construction step). -/
def c9_state : CState :=
  begin_scope (register_factory initState 0 ⟨[], .allocThenNone⟩
    (some .SCOPED)) none

/-- Container with an active empty scope and service 1 registered Scoped
with a factory returning a fresh object. -/
def c9_state2 : CState :=
  begin_scope (register_factory initState 1 ⟨[], .fresh⟩ (some .SCOPED)) none

/-- C9: a Scoped construction step that returns `None` is stored in the
scope map but never served from it — `dict.get` returns `None` for the
stored entry exactly as for a missing one — so every later resolution in
the same scope re-runs construction (the allocation counter grows from 1
to 2 across the two calls), while a non-`None` scoped instance is cached
and returned identically with no re-construction. -/
theorem c9_scoped_none_sentinel :
    (resolve plainEnv 9 c9_state 0).1 = .ok none ∧
    (resolve plainEnv 9 c9_state 0).2.nextObj = 1 ∧
    (resolve plainEnv 9 c9_state 0).2.currentScope
      = some [((0, none), none)] ∧
    (resolve plainEnv 9 (resolve plainEnv 9 c9_state 0).2 0).1 = .ok none ∧
    (resolve plainEnv 9 (resolve plainEnv 9 c9_state 0).2 0).2.nextObj = 2 ∧
    (resolve plainEnv 9 c9_state2 1).1 = .ok (some 0) ∧
    (resolve plainEnv 9 (resolve plainEnv 9 c9_state2 1).2 1).1
      = .ok (some 0) ∧
    (resolve plainEnv 9 (resolve plainEnv 9 c9_state2 1).2 1).2.nextObj
      = 1 := by
  refine ⟨?_, ?_, ?_, ?_, ?_, ?_, ?_, ?_⟩ <;> decide

/-! ### C10: nested not-registered failures and tryResolve -/

/-- Class environment: type 10 is an implementation whose constructor
requires service 1, which is never registered. -/
def c10_env : ClassEnv := fun t => if t = 10 then mkNeedClass 1 else cdNoDeps

/-- Service 0 registered (unkeyed) to implementation 10. -/
def c10_state : CState := register initState 0 (some 10) none

/-- Service 0 registered under key 5 to implementation 10. -/
def c10_state_k : CState :=
  register_keyed initState 0 (some 5) (some 10) none

/-- C10: when the requested service is registered but a transitive
constructor dependency is not, plain resolution fails with
ServiceNotRegistered naming the missing dependency (service 1), and
`try_resolve`/`try_resolve_keyed` swallow that nested failure into an
absent value exactly as they do a top-level miss, leaving the stack
clean. -/
theorem c10_nested_miss_swallowed :
    (resolve c10_env 9 c10_state 0).1
      = .error (.serviceNotRegistered 1 none) ∧
    (try_resolve c10_env 9 c10_state 0).1 = .ok none ∧
    (try_resolve c10_env 9 c10_state 0).2.resolutionStack = [] ∧
    (resolve_keyed c10_env 9 c10_state_k 0 (some 5)).1
      = .error (.serviceNotRegistered 1 none) ∧
    (try_resolve_keyed c10_env 9 c10_state_k 0 (some 5)).1 = .ok none ∧
    (try_resolve_keyed c10_env 9 c10_state_k 0 (some 5)).2.resolutionStack
      = [] := by
  refine ⟨?_, ?_, ?_, ?_, ?_, ?_⟩ <;> decide

/-! ### C3: transient distinctness -/

/-- Service 0 registered Transient (the default) with a factory that
returns the pre-existing object 42 on every call. -/
def c3_state : CState :=
  register_factory initState 0 ⟨[], .const (some 42)⟩ none

/-- C3 (counterexample): the registration is Transient, yet two consecutive
resolutions return the identical instance (object 42), because a transient
factory is merely invoked anew each time and this factory returns the same
pre-existing object. -/
theorem c3_counterexample :
    (dictGet c3_state.registry (0, none)).map ServiceRegistration.lifetime
      = some .TRANSIENT ∧
    (resolve plainEnv 9 c3_state 0).1 = .ok (some 42) ∧
    (resolve plainEnv 9 (resolve plainEnv 9 c3_state 0).2 0).1
      = .ok (some 42) := by
  refine ⟨?_, ?_, ?_⟩ <;> decide

/-- C3 (amended): a Transient registration is constructed anew on every
resolution (nothing is cached), and for the implementation-type strategy —
where each construction instantiates the class, allocating a fresh object —
two consecutive successful resolutions of the same (service identifier,
key) yield distinct instances; a Transient factory registration returns
whatever the factory produces, which may be the identical object (see the
counterexample). -/
theorem c3_amended (env : ClassEnv) (f1 f2 : Nat) (s s1 s2 : CState)
    (st : Nat) (key : Option Nat) (v1 v2 : PyVal)
    (reg : ServiceRegistration)
    (hreg : dictGet s.registry (st, key) = some reg)
    (hlt : reg.lifetime = .TRANSIENT)
    (hstrat : reg.strategy = .TYPE_TO_TYPE)
    (h1 : resolve_keyed env f1 s st key = (.ok v1, s1))
    (h2 : resolve_keyed env f2 s1 st key = (.ok v2, s2)) :
    v1 ≠ v2 := by
  rcases hp1 : resolve_keyed_internal env f1 s st key with ⟨res1, sm1⟩
  simp only [resolve_keyed, hp1] at h1
  injection h1 with h1a h1b
  rw [h1a] at hp1
  obtain ⟨n1, hv1, hlo1, hhi1⟩ :=
    rki_transient_type_fresh env f1 s st key v1 sm1 reg hreg hlt hstrat hp1
  rcases hp2 : resolve_keyed_internal env f2 s1 st key with ⟨res2, sm2⟩
  simp only [resolve_keyed, hp2] at h2
  injection h2 with h2a h2b
  rw [h2a] at hp2
  have hreg1 : dictGet s1.registry (st, key) = some reg := by
    have hpr : sm1.registry = s.registry := by
      have := (resolve_keyed_internal_progress env f1 s st key).1
      rw [hp1] at this
      exact this
    rw [← h1b]
    show dictGet sm1.registry (st, key) = some reg
    rw [hpr]
    exact hreg
  obtain ⟨n2, hv2, hlo2, hhi2⟩ :=
    rki_transient_type_fresh env f2 s1 st key v2 sm2 reg hreg1 hlt hstrat hp2
  have hn1 : n1 < s1.nextObj := by
    rw [← h1b]
    exact hhi1
  rw [hv1, hv2]
  intro hcon
  injection hcon with hcon
  omega

/-- Concrete data for the C3 witness: service 0 registered Transient to
implementation type 12 (a class with no dependencies). -/
def c3w_state : CState := register initState 0 (some 12) none

def c3w_s1 : CState := (resolve_keyed plainEnv 5 c3w_state 0 none).2

def c3w_s2 : CState := (resolve_keyed plainEnv 5 c3w_s1 0 none).2

def c3w_reg : ServiceRegistration :=
  ServiceRegistration.make 0 (some 12) none none .TRANSIENT none

/-- Witness for C3 (amended): the two consecutive resolutions of the
transient implementation-type registration return objects 0 and 1, which
are distinct. -/
theorem c3_amended_witness : (some 0 : PyVal) ≠ some 1 :=
  c3_amended plainEnv 5 5 c3w_state c3w_s1 c3w_s2 0 none (some 0) (some 1)
    c3w_reg (by decide) (by decide) (by decide) (by decide) (by decide)

/-! ### C5: the try-resolve error taxonomy -/

theorem getLast?_push (l : List ServiceKey) (k : ServiceKey) :
    (l ++ [k]).getLast? = some k := by
  rw [List.getLast?_append_cons]
  rfl

/-- C5: `try_resolve` and `try_resolve_keyed` never surface a
not-registered error — they return an absent value (`None`) whenever the
looked-up (service identifier, key) has no registration, including the
degenerate stack-clean precondition — while every other failure kind
produced by the internal resolution (CircularDependency,
InvalidRegistration, ScopeError, user errors raised by factories or
constructors) propagates unchanged to the caller. -/
theorem c5_try_resolve_taxonomy (env : ClassEnv) (fuel : Nat) (s : CState)
    (st : Nat) (key : Option Nat) :
    (∀ t kk, (try_resolve env fuel s st).1
      ≠ .error (.serviceNotRegistered t kk)) ∧
    (∀ t kk, (try_resolve_keyed env fuel s st key).1
      ≠ .error (.serviceNotRegistered t kk)) ∧
    (dictGet s.registry (st, key) = none → (st, key) ∉ s.resolutionStack →
      1 ≤ fuel → (try_resolve_keyed env fuel s st key).1 = .ok none) ∧
    (dictGet s.registry (st, none) = none → (st, none) ∉ s.resolutionStack →
      1 ≤ fuel → (try_resolve env fuel s st).1 = .ok none) ∧
    (∀ e, (resolve_keyed_internal env fuel s st key).1 = .error e →
      (∀ t kk, e ≠ .serviceNotRegistered t kk) →
      (try_resolve_keyed env fuel s st key).1 = .error e) := by
  refine ⟨?_, ?_, ?_, ?_, ?_⟩
  · intro t kk
    rcases hp : resolve_keyed_internal env fuel s st none with ⟨res, s'⟩
    simp only [try_resolve, hp]
    cases res with
    | ok v => simp
    | error e => cases e <;> simp
  · intro t kk
    rcases hp : resolve_keyed_internal env fuel s st key with ⟨res, s'⟩
    simp only [try_resolve_keyed, hp]
    cases res with
    | ok v => simp
    | error e => cases e <;> simp
  · intro hmiss hstk hfuel
    obtain ⟨g, rfl⟩ : ∃ g, fuel = g + 1 := ⟨fuel - 1, by omega⟩
    simp only [try_resolve_keyed, resolve_keyed_internal, hstk, if_false,
      reduceIte, rki_body]
    rw [show dictGet (push_stack s (st, key)).registry (st, key) = none from
      by simpa [push_stack] using hmiss]
    simp only [finally_pop, push_stack, getLast?_push, if_true, reduceIte]
  · intro hmiss hstk hfuel
    obtain ⟨g, rfl⟩ : ∃ g, fuel = g + 1 := ⟨fuel - 1, by omega⟩
    simp only [try_resolve, resolve_keyed_internal, hstk, if_false,
      reduceIte, rki_body]
    rw [show dictGet (push_stack s (st, none)).registry (st, none) = none from
      by simpa [push_stack] using hmiss]
    simp only [finally_pop, push_stack, getLast?_push, if_true, reduceIte]
  · intro e hint hnot
    rcases hp : resolve_keyed_internal env fuel s st key with ⟨res, s'⟩
    rw [hp] at hint
    have hres : res = .error e := hint
    simp only [try_resolve_keyed, hp, hres]
    cases e with
    | serviceNotRegistered t kk => exact absurd rfl (hnot t kk)
    | circularDependency ch => simp
    | invalidRegistration => simp
    | scopeError => simp
    | userError c => simp
    | outOfFuel => simp

/-- Service 0 registered Scoped (self-registration) with no active scope,
so internal resolution fails with ScopeError. -/
def c5w_state : CState := register initState 0 none (some .SCOPED)

/-- Witness for C5 at concrete inputs: an unregistered keyed lookup returns
an absent value, and a ScopeError raised during resolution propagates
through `try_resolve_keyed` unchanged. -/
theorem c5_witness :
    (try_resolve_keyed plainEnv 3 initState 7 (some 1)).1 = .ok none ∧
    (try_resolve_keyed plainEnv 3 c5w_state 0 none).1 = .error .scopeError :=
  ⟨(c5_try_resolve_taxonomy plainEnv 3 initState 7 (some 1)).2.2.1
      (by decide) (by decide) (by decide),
   (c5_try_resolve_taxonomy plainEnv 3 c5w_state 0 none).2.2.2.2 .scopeError
      (by decide) (by intro t kk h; cases h)⟩

/-! ### C2: singleton identity across the container lifetime -/

/-- C2: once a Singleton registration for (service identifier, key) has
been resolved to an instance `v`, any later successful resolution of the
same pair — after any sequence of public container calls that does not
include `clear()`, and as long as the registration in place is a Singleton
one under its own key — returns the identical instance `v` (the first
constructed instance, served from the singleton cache). -/
theorem c2_singleton_identity (env : ClassEnv) (objs : ObjEnv)
    (f1 f2 : Nat) (s0 s1 s3 : CState) (st : Nat) (key : Option Nat)
    (v v2 : PyVal) (reg reg2 : ServiceRegistration) (ops : List Op)
    (hreg : dictGet s0.registry (st, key) = some reg)
    (hlt : reg.lifetime = .SINGLETON)
    (hst : reg.service_type = st) (hk : reg.key = key)
    (h1 : resolve_keyed env f1 s0 st key = (.ok v, s1))
    (hops : Op.clearOp ∉ ops)
    (hreg2 : dictGet (run_ops env objs s1 ops).registry (st, key) = some reg2)
    (hlt2 : reg2.lifetime = .SINGLETON)
    (hst2 : reg2.service_type = st) (hk2 : reg2.key = key)
    (h2 : resolve_keyed env f2 (run_ops env objs s1 ops) st key
      = (.ok v2, s3)) :
    v2 = v := by
  rcases hp1 : resolve_keyed_internal env f1 s0 st key with ⟨res1, sm1⟩
  simp only [resolve_keyed, hp1] at h1
  injection h1 with h1a h1b
  rw [h1a] at hp1
  have hc1 : dictGet sm1.singletons (st, key) = some v :=
    rki_singleton_caches env f1 s0 st key v sm1 reg hreg hlt hst hk hp1
  have hc1' : dictGet s1.singletons (st, key) = some v := by
    rw [← h1b]
    exact hc1
  have hc2 : dictGet (run_ops env objs s1 ops).singletons (st, key)
      = some v :=
    run_ops_keep_singletons env objs ops hops s1 (st, key) v hc1'
  rcases hp2 : resolve_keyed_internal env f2 (run_ops env objs s1 ops) st key
    with ⟨res2, sm2⟩
  simp only [resolve_keyed, hp2] at h2
  injection h2 with h2a h2b
  rw [h2a] at hp2
  exact rki_singleton_hit env f2 _ st key v v2 sm2 reg2 hreg2 hlt2 hst2 hk2
    hc2 hp2

/-- Concrete data for the C2 witness: a Singleton factory registration for
service 0, an intervening register / beginScope / endScope sequence. -/
def c2w_s0 : CState :=
  register_factory initState 0 ⟨[], .fresh⟩ (some .SINGLETON)

def c2w_s1 : CState := (resolve_keyed plainEnv 5 c2w_s0 0 none).2

def c2w_ops : List Op :=
  [Op.registerOp 1 none none, Op.beginScopeOp none, Op.endScopeOp]

def c2w_s2 : CState := run_ops plainEnv c4w_objs c2w_s1 c2w_ops

def c2w_s3 : CState := (resolve_keyed plainEnv 5 c2w_s2 0 none).2

def c2w_reg : ServiceRegistration :=
  ServiceRegistration.make 0 none none (some ⟨[], .fresh⟩) .SINGLETON none

/-- Witness for C2 at concrete inputs: the singleton instance (object 0)
survives an intervening registration and a scope cycle, and the second
resolution returns it identically. -/
theorem c2_singleton_identity_witness :
    Op.clearOp ∉ c2w_ops ∧ (some 0 : PyVal) = some 0 :=
  ⟨by decide,
   c2_singleton_identity plainEnv c4w_objs 5 5 c2w_s0 c2w_s1 c2w_s3 0 none
     (some 0) (some 0) c2w_reg c2w_reg c2w_ops (by decide) (by decide)
     (by decide) (by decide) (by decide) (by decide) (by decide) (by decide)
     (by decide) (by decide) (by decide)⟩

/-! ### C1: circular dependency detection -/

/-- C1: with registration A (service `a`, implementation `ia` requiring
`b`) and registration B (service `b`, implementation `ib` requiring `a`)
mutually dependent, resolving `a` on a container with a clean stack fails
with CircularDependency whose chain contains both keys, the resolution
stack is cleared by the top-level call, and a subsequent unrelated
resolution of `u` on the same container succeeds normally. -/
theorem c1_circular_cycle_detected (env : ClassEnv) (fuel : Nat)
    (a b u ia ib iu : Nat) (s : CState)
    (hab : a ≠ b)
    (henva : env ia = mkNeedClass b)
    (henvb : env ib = mkNeedClass a)
    (henvu : env iu = cdNoDeps)
    (hA : dictGet s.registry (a, none)
      = some (ServiceRegistration.make a (some ia) none none .TRANSIENT none))
    (hB : dictGet s.registry (b, none)
      = some (ServiceRegistration.make b (some ib) none none .TRANSIENT none))
    (hU : dictGet s.registry (u, none)
      = some (ServiceRegistration.make u (some iu) none none .TRANSIENT none))
    (hstack : s.resolutionStack = [])
    (hfuel : 3 ≤ fuel) :
    ∃ chain s1 s2,
      resolve env fuel s a = (.error (.circularDependency chain), s1) ∧
      (a, none) ∈ chain ∧ (b, none) ∈ chain ∧
      s1.resolutionStack = [] ∧
      resolve env fuel s1 u = (.ok (some s.nextObj), s2) := by
  obtain ⟨g, rfl⟩ : ∃ g, fuel = g + 1 + 1 + 1 := ⟨fuel - 3, by omega⟩
  have hba : b ≠ a := fun h => hab h.symm
  have hfa : ctorParamFilter (mkNeedClass b)
      = [⟨"dep", .normal, some b, none⟩] := rfl
  have hfb : ctorParamFilter (mkNeedClass a)
      = [⟨"dep", .normal, some a, none⟩] := rfl
  have hfu : ctorParamFilter cdNoDeps = [] := rfl
  have hrb : (mkNeedClass b).ctorRaises = none := rfl
  have hra : (mkNeedClass a).ctorRaises = none := rfl
  have hru : cdNoDeps.ctorRaises = none := rfl
  refine ⟨[(a, none), (b, none), (a, none)],
    { s with resolutionStack := [] },
    { s with resolutionStack := [], nextObj := s.nextObj + 1 },
    ?_, by simp, by simp, rfl, ?_⟩
  · simp only [resolve, resolve_keyed_internal, hstack, push_stack, rki_body,
      finally_pop, hA, hB, henva, henvb, hfa, hfb, hrb, hra,
      ServiceRegistration.make, create_instance, create_new_instance,
      create_type_instance, resolve_ctor_params, resolve_one_ctor_param,
      instantiate, List.not_mem_nil, List.nil_append, List.cons_append,
      List.singleton_append, List.mem_cons, List.mem_singleton,
      Prod.mk.injEq, Option.some.injEq, hab, hba,
      List.getLast?_cons_cons, List.getLast?_singleton, List.dropLast,
      if_false, if_true, reduceIte, and_true, true_and, and_false,
      false_and, or_false, false_or, or_true, true_or, and_self,
      eq_self_iff_true, not_false_iff, ne_eq]
  · simp only [resolve, resolve_keyed_internal, hstack, push_stack, rki_body,
      finally_pop, hU, henvu, hfu, hru,
      ServiceRegistration.make, create_instance, create_new_instance,
      create_type_instance, resolve_ctor_params, resolve_one_ctor_param,
      instantiate, List.not_mem_nil, List.nil_append, List.cons_append,
      List.singleton_append, List.mem_cons, List.mem_singleton,
      Prod.mk.injEq, Option.some.injEq,
      List.getLast?_cons_cons, List.getLast?_singleton, List.dropLast,
      if_false, if_true, reduceIte, and_true, true_and, and_false,
      false_and, or_false, false_or, or_true, true_or, and_self,
      eq_self_iff_true, not_false_iff, ne_eq]

/-- Concrete environment for the C1 witness: implementation 10 needs
service 1, implementation 11 needs service 0, implementation 12 has no
dependencies. -/
def c1w_env : ClassEnv := fun t =>
  if t = 10 then mkNeedClass 1
  else if t = 11 then mkNeedClass 0
  else cdNoDeps

/-- Services 0 ↦ impl 10, 1 ↦ impl 11 (mutually circular), 2 ↦ impl 12. -/
def c1w_state : CState :=
  register (register (register initState 0 (some 10) none) 1 (some 11) none)
    2 (some 12) none

/-- Witness for C1 at concrete inputs. -/
theorem c1_witness :
    ∃ chain s1 s2,
      resolve c1w_env 9 c1w_state 0
        = (.error (.circularDependency chain), s1) ∧
      (0, (none : Option Nat)) ∈ chain ∧
      (1, (none : Option Nat)) ∈ chain ∧
      s1.resolutionStack = [] ∧
      resolve c1w_env 9 s1 2 = (.ok (some c1w_state.nextObj), s2) :=
  c1_circular_cycle_detected c1w_env 9 0 1 2 10 11 12 c1w_state (by decide)
    (by decide) (by decide) (by decide) (by decide) (by decide) (by decide)
    (by decide) (by decide)

/-- C9 (universal form): for every container state with an active scope and
every registration, (1) when the scope holds `None` at the registration's
key — or holds nothing at all, the two being indistinguishable through
`dict.get` — a scoped construction never takes the cache-hit path: it
re-runs the construction step and stores its result; (2) whenever a scoped
construction returns `None`, the scope afterwards still reads as missing at
that key, so by (1) every subsequent resolution of that (service
identifier, key) within the same scope re-runs construction; (3) a
non-`None` stored instance is returned identically from the cache with the
state unchanged — the within-scope identical-instance guarantee holds
exactly for non-`None` instances. -/
theorem c9_scoped_none_never_cached (env : ClassEnv) (r : Resolver)
    (s : CState) (reg : ServiceRegistration) :
    (∀ sc, s.currentScope = some sc →
      (dictGet sc (reg.service_type, reg.key) = some none ∨
        dictGet sc (reg.service_type, reg.key) = none) →
      create_instance_scoped env r s reg
        = (match create_new_instance env r s reg with
           | (.ok v, s1) =>
               (.ok v, { s1 with currentScope := some (dictSet
                   (s1.currentScope.getD [])
                   (reg.service_type, reg.key) v) })
           | (.error e, s1) => (.error e, s1))) ∧
    (∀ s', create_instance_scoped env r s reg = (.ok none, s') →
      ∀ sc', s'.currentScope = some sc' →
        (dictGet sc' (reg.service_type, reg.key)).getD none = none) ∧
    (∀ sc v, s.currentScope = some sc →
      dictGet sc (reg.service_type, reg.key) = some (some v) →
      create_instance_scoped env r s reg = (.ok (some v), s)) := by
  refine ⟨?_, ?_, ?_⟩
  · intro sc hsc hor
    have hg : (dictGet sc (reg.service_type, reg.key)).getD none = none := by
      rcases hor with h | h <;> simp [h]
    simp only [create_instance_scoped, hsc, hg]
  · intro s' h sc' hsc'
    cases hcs : s.currentScope with
    | none =>
        simp only [create_instance_scoped, hcs] at h
        cases h
    | some sc =>
        cases hg : (dictGet sc (reg.service_type, reg.key)).getD none with
        | some v =>
            simp only [create_instance_scoped, hcs, hg] at h
            injection h with h1 h2
            cases h1
        | none =>
            rcases hc : create_new_instance env r s reg with ⟨res, s1⟩
            simp only [create_instance_scoped, hcs, hg, hc] at h
            cases res with
            | error e => cases h
            | ok v =>
                injection h with h1 h2
                injection h1 with h1
                rw [← h2] at hsc'
                have hsc'' : some (dictSet (s1.currentScope.getD [])
                    (reg.service_type, reg.key) v) = some sc' := hsc'
                injection hsc'' with hsc''
                rw [← hsc'', h1]
                simp [dictGet_dictSet_self]
  · intro sc v hsc hg
    simp only [create_instance_scoped, hsc, hg, Option.getD]

/-- Concrete data for the C9 witness: a scope holding `None` for service 0
and object 7 for service 1. -/
def c9w_scope : List (ServiceKey × PyVal) :=
  [((0, none), none), ((1, none), some 7)]

def c9w_state : CState := { initState with currentScope := some c9w_scope }

def c9w_reg : ServiceRegistration :=
  ServiceRegistration.make 0 none none (some ⟨[], .allocThenNone⟩)
    .SCOPED none

def c9w_reg2 : ServiceRegistration :=
  ServiceRegistration.make 1 none none (some ⟨[], .fresh⟩) .SCOPED none

/-- Witness for C9 at concrete inputs: the stored `None` for service 0
forces the construct path, while the stored object 7 for service 1 is
returned identically with the state unchanged. -/
theorem c9_witness :
    create_instance_scoped plainEnv (resolve_keyed_internal plainEnv 3)
        c9w_state c9w_reg
      = (match create_new_instance plainEnv (resolve_keyed_internal plainEnv 3)
            c9w_state c9w_reg with
         | (.ok v, s1) =>
             (.ok v, { s1 with currentScope := some (dictSet
                 (s1.currentScope.getD [])
                 (c9w_reg.service_type, c9w_reg.key) v) })
         | (.error e, s1) => (.error e, s1)) ∧
    create_instance_scoped plainEnv (resolve_keyed_internal plainEnv 3)
        c9w_state c9w_reg2
      = (.ok (some 7), c9w_state) :=
  ⟨(c9_scoped_none_never_cached plainEnv (resolve_keyed_internal plainEnv 3)
      c9w_state c9w_reg).1 c9w_scope rfl (Or.inl (by decide)),
   (c9_scoped_none_never_cached plainEnv (resolve_keyed_internal plainEnv 3)
      c9w_state c9w_reg2).2.2 c9w_scope 7 rfl (by decide)⟩

/-- A not-registered failure surfacing from the internal resolution — at
whatever recursion depth it was raised — is converted by
`try_resolve_keyed` into an absent value. -/
theorem try_resolve_keyed_swallows (env : ClassEnv) (fuel : Nat)
    (s : CState) (st : Nat) (key : Option Nat) (t : Nat) (kk : Option Nat)
    (h : (resolve_keyed_internal env fuel s st key).1
      = .error (.serviceNotRegistered t kk)) :
    (try_resolve_keyed env fuel s st key).1 = .ok none := by
  rcases hp : resolve_keyed_internal env fuel s st key with ⟨res, s'⟩
  rw [hp] at h
  have hres : res = .error (.serviceNotRegistered t kk) := h
  simp only [try_resolve_keyed, hp, hres]

/-- The unkeyed counterpart of `try_resolve_keyed_swallows`. -/
theorem try_resolve_swallows (env : ClassEnv) (fuel : Nat) (s : CState)
    (st : Nat) (t : Nat) (kk : Option Nat)
    (h : (resolve_keyed_internal env fuel s st none).1
      = .error (.serviceNotRegistered t kk)) :
    (try_resolve env fuel s st).1 = .ok none := by
  rcases hp : resolve_keyed_internal env fuel s st none with ⟨res, s'⟩
  rw [hp] at h
  have hres : res = .error (.serviceNotRegistered t kk) := h
  simp only [try_resolve, hp, hres]

/-- C10 (universal form): (1) and (2) — any not-registered failure raised
during the internal resolution, nested ones included, is swallowed into an
absent value by `try_resolve_keyed` and `try_resolve`; (3) a registered
implementation-type service whose first enumerated constructor dependency
`d` is unregistered fails internally with ServiceNotRegistered naming `d`,
and the try-variant returns an absent value; (4) likewise for a registered
factory service whose first declared factory dependency is unregistered. -/
theorem c10_nested_not_registered (env : ClassEnv) (fuel : Nat)
    (s : CState) (st : Nat) (key : Option Nat) :
    (∀ t kk, (resolve_keyed_internal env fuel s st key).1
        = .error (.serviceNotRegistered t kk) →
      (try_resolve_keyed env fuel s st key).1 = .ok none) ∧
    (∀ t kk, (resolve_keyed_internal env fuel s st none).1
        = .error (.serviceNotRegistered t kk) →
      (try_resolve env fuel s st).1 = .ok none) ∧
    (∀ reg it nm kd d rest,
      dictGet s.registry (st, key) = some reg →
      reg.lifetime = .TRANSIENT → reg.strategy = .TYPE_TO_TYPE →
      reg.implementation_type = some it →
      ctorParamFilter (env it) = ⟨nm, kd, some d, none⟩ :: rest →
      dictGet s.registry (d, none) = none →
      (st, key) ∉ s.resolutionStack → (d, none) ∉ s.resolutionStack →
      (d, none) ≠ (st, key) → 2 ≤ fuel →
      (resolve_keyed_internal env fuel s st key).1
          = .error (.serviceNotRegistered d none) ∧
        (try_resolve_keyed env fuel s st key).1 = .ok none) ∧
    (∀ reg f nm kd d rest,
      dictGet s.registry (st, key) = some reg →
      reg.lifetime = .TRANSIENT → reg.strategy = .TYPE_TO_FACTORY →
      reg.factory = some f →
      f.params = ⟨nm, kd, some d⟩ :: rest →
      dictGet s.registry (d, none) = none →
      (st, key) ∉ s.resolutionStack → (d, none) ∉ s.resolutionStack →
      (d, none) ≠ (st, key) → 2 ≤ fuel →
      (resolve_keyed_internal env fuel s st key).1
          = .error (.serviceNotRegistered d none) ∧
        (try_resolve_keyed env fuel s st key).1 = .ok none) := by
  refine ⟨?_, ?_, ?_, ?_⟩
  · intro t kk h
    exact try_resolve_keyed_swallows env fuel s st key t kk h
  · intro t kk h
    exact try_resolve_swallows env fuel s st t kk h
  · intro reg it nm kd d rest hreg hlt hstrat himpl hfilter hd hstk hdstk
      hdk hfuel
    obtain ⟨g, rfl⟩ : ∃ g, fuel = g + 1 + 1 := ⟨fuel - 2, by omega⟩
    have hmain : (resolve_keyed_internal env (g + 1 + 1) s st key).1
        = .error (.serviceNotRegistered d none) := by
      simp only [resolve_keyed_internal, push_stack, rki_body, finally_pop,
        hreg, hlt, hstrat, himpl, hfilter, hd, hstk, hdstk, hdk,
        create_instance, create_new_instance, create_type_instance,
        resolve_ctor_params, resolve_one_ctor_param,
        List.mem_append, List.mem_singleton, List.not_mem_nil,
        List.getLast?_concat, List.dropLast_concat, Option.some.injEq,
        if_false, if_true, reduceIte, and_true, true_and, and_false,
        false_and, or_false, false_or, or_true, true_or, and_self,
        eq_self_iff_true, not_false_iff, ne_eq]
    exact ⟨hmain, try_resolve_keyed_swallows env _ s st key d none hmain⟩
  · intro reg f nm kd d rest hreg hlt hstrat hfac hparams hd hstk hdstk
      hdk hfuel
    obtain ⟨g, rfl⟩ : ∃ g, fuel = g + 1 + 1 := ⟨fuel - 2, by omega⟩
    have hmain : (resolve_keyed_internal env (g + 1 + 1) s st key).1
        = .error (.serviceNotRegistered d none) := by
      simp only [resolve_keyed_internal, push_stack, rki_body, finally_pop,
        hreg, hlt, hstrat, hfac, hparams, hd, hstk, hdstk, hdk,
        create_instance, create_new_instance, invoke_factory,
        resolve_factory_params,
        List.mem_append, List.mem_singleton, List.not_mem_nil,
        List.getLast?_concat, List.dropLast_concat, Option.some.injEq,
        if_false, if_true, reduceIte, and_true, true_and, and_false,
        false_and, or_false, false_or, or_true, true_or, and_self,
        eq_self_iff_true, not_false_iff, ne_eq]
    exact ⟨hmain, try_resolve_keyed_swallows env _ s st key d none hmain⟩

/-- Service 0 registered Transient with a factory whose first parameter is
annotated with the unregistered type 1. -/
def c10w_fstate : CState :=
  register_factory initState 0 ⟨[⟨"x", .normal, some 1⟩], .fresh⟩ none

/-- Witness for C10 at concrete inputs: a missing constructor dependency
and a missing factory dependency each raise ServiceNotRegistered naming
the dependency (service 1), and `try_resolve_keyed` swallows both into an
absent value. -/
theorem c10_witness :
    ((resolve_keyed_internal c10_env 9 c10_state 0 none).1
        = .error (.serviceNotRegistered 1 none) ∧
      (try_resolve_keyed c10_env 9 c10_state 0 none).1 = .ok none) ∧
    ((resolve_keyed_internal plainEnv 9 c10w_fstate 0 none).1
        = .error (.serviceNotRegistered 1 none) ∧
      (try_resolve_keyed plainEnv 9 c10w_fstate 0 none).1 = .ok none) :=
  ⟨(c10_nested_not_registered c10_env 9 c10_state 0 none).2.2.1
      (ServiceRegistration.make 0 (some 10) none none .TRANSIENT none)
      10 "dep" .normal 1 [] (by decide) (by decide) (by decide) (by decide)
      (by decide) (by decide) (by decide) (by decide) (by decide)
      (by decide),
   (c10_nested_not_registered plainEnv 9 c10w_fstate 0 none).2.2.2
      (ServiceRegistration.make 0 none none
        (some ⟨[⟨"x", .normal, some 1⟩], .fresh⟩) .TRANSIENT none)
      ⟨[⟨"x", .normal, some 1⟩], .fresh⟩ "x" .normal 1 [] (by decide)
      (by decide) (by decide) (by decide) (by decide) (by decide)
      (by decide) (by decide) (by decide) (by decide)⟩
